import Mathlib

/-!
Formal model of the PlanForge layout-generation engine
(`backend/app/engine/`: `models.py`, `archetypes.py`, `compliance.py`,
`vastu.py`, `scorer.py`, `solver.py`, `generator.py`).

Python floats are modelled as exact rationals (ℚ).  Because the kernel
cannot reduce the `Rat` field operations (they are `irreducible`), every
definition below uses the executable mirrors `qadd`, `qsub`, `qmul`,
`qdiv`, `qmin`, `qmax`, which are proved equal to the ordinary field
operations, so symbolic proofs can rewrite them away while concrete
inputs still evaluate by `decide`.

Python's `round(x, n)` (banker's rounding) is modelled by `roundQ` on the
exact rational value, and `int(x)` by truncation toward zero.
-/

/-! ## Executable rational arithmetic -/

def qadd (a b : ℚ) : ℚ := mkRat (a.num * b.den + b.num * a.den) (a.den * b.den)

def qneg (a : ℚ) : ℚ := mkRat (-a.num) a.den

def qsub (a b : ℚ) : ℚ := qadd a (qneg b)

def qmul (a b : ℚ) : ℚ := mkRat (a.num * b.num) (a.den * b.den)

def qdiv (a b : ℚ) : ℚ := Rat.divInt (a.num * (b.den : Int)) ((a.den : Int) * b.num)

def qmin (a b : ℚ) : ℚ := if a ≤ b then a else b

def qmax (a b : ℚ) : ℚ := if a ≤ b then b else a

def qabs (a : ℚ) : ℚ := if a < 0 then qneg a else a

theorem qadd_eq (a b : ℚ) : qadd a b = a + b := by
  unfold qadd
  rw [Rat.mkRat_eq_div]
  push_cast
  conv_rhs => rw [← Rat.num_div_den a, ← Rat.num_div_den b]
  rw [div_add_div _ _ (by exact_mod_cast a.den_nz) (by exact_mod_cast b.den_nz)]
  ring_nf

theorem qneg_eq (a : ℚ) : qneg a = -a := by
  unfold qneg
  rw [Rat.mkRat_eq_div]
  push_cast
  rw [neg_div, Rat.num_div_den]

theorem qsub_eq (a b : ℚ) : qsub a b = a - b := by
  unfold qsub
  rw [qadd_eq, qneg_eq, sub_eq_add_neg]

theorem qmul_eq (a b : ℚ) : qmul a b = a * b := by
  unfold qmul
  rw [Rat.mkRat_eq_div]
  push_cast
  conv_rhs => rw [← Rat.num_div_den a, ← Rat.num_div_den b]
  rw [div_mul_div_comm]

theorem qdiv_eq (a b : ℚ) : qdiv a b = a / b := by
  unfold qdiv
  rw [Rat.divInt_eq_div]
  push_cast
  by_cases hb : (b.num : ℚ) = 0
  · have hb0 : b = 0 := by
      have := Rat.num_div_den b
      rw [hb] at this
      simpa using this.symm
    simp [hb, hb0]
  · conv_rhs => rw [← Rat.num_div_den a, ← Rat.num_div_den b]
    have had : ((a.den : ℚ)) ≠ 0 := by exact_mod_cast a.den_nz
    have hbd : ((b.den : ℚ)) ≠ 0 := by exact_mod_cast b.den_nz
    field_simp

theorem qmin_eq (a b : ℚ) : qmin a b = min a b := by
  unfold qmin
  rw [min_def]

theorem qmax_eq (a b : ℚ) : qmax a b = max a b := by
  unfold qmax
  rw [max_def]

theorem qabs_eq (a : ℚ) : qabs a = |a| := by
  unfold qabs
  rw [qneg_eq]
  rcases lt_or_le a 0 with h | h
  · rw [if_pos h, abs_of_neg h]
  · rw [if_neg (not_lt.mpr h), abs_of_nonneg h]

/-- Python's `round` to an integer: round half to even on the exact value. -/
def roundHalfEven (x : ℚ) : ℤ :=
  let n : ℤ := ⌊x⌋
  let r : ℚ := qsub x (n : ℚ)
  if r < mkRat 1 2 then n
  else if mkRat 1 2 < r then n + 1
  else if n % 2 = 0 then n else n + 1

/-- Python's `round(x, 3)`. -/
def round3 (x : ℚ) : ℚ := qdiv ((roundHalfEven (qmul x 1000) : ℤ) : ℚ) 1000

/-- Python's `round(x, 2)`. -/
def round2 (x : ℚ) : ℚ := qdiv ((roundHalfEven (qmul x 100) : ℤ) : ℚ) 100

/-- Python's `int(x)`: truncation toward zero. -/
def intTrunc (x : ℚ) : ℤ := if x < 0 then -⌊-x⌋ else ⌊x⌋

/-- `solver._mm`: `int(round(metres * 1000))`. -/
def mmOf (metres : ℚ) : ℤ := roundHalfEven (qmul metres 1000)

theorem roundHalfEven_intCast (n : ℤ) : roundHalfEven (n : ℚ) = n := by
  simp only [roundHalfEven, qsub_eq, Int.floor_intCast, sub_self]
  norm_num [Rat.mkRat_eq_div]

theorem roundHalfEven_int_value (x : ℚ) (n : ℤ) (h : x = (n : ℚ)) :
    roundHalfEven x = n := by
  rw [h, roundHalfEven_intCast]

/-- Rounding to 3 decimals fixes any rational that is an exact multiple
of 1/1000. -/
theorem round3_thousandth (k : ℤ) : round3 (qdiv (k : ℚ) 1000) = qdiv (k : ℚ) 1000 := by
  unfold round3
  rw [qdiv_eq, qdiv_eq, qmul_eq]
  rw [div_mul_cancel₀ _ (by norm_num : (1000 : ℚ) ≠ 0)]
  rw [roundHalfEven_intCast]

/-! ## ASCII string helpers (model Python `str.upper`, `str.lower`, `str.strip`) -/

def asciiUpperChar (c : Char) : Char :=
  if 97 ≤ c.toNat ∧ c.toNat ≤ 122 then Char.ofNat (c.toNat - 32) else c

def asciiUpper (s : String) : String := ⟨s.data.map asciiUpperChar⟩

def asciiLowerChar (c : Char) : Char :=
  if 65 ≤ c.toNat ∧ c.toNat ≤ 90 then Char.ofNat (c.toNat + 32) else c

def asciiLower (s : String) : String := ⟨s.data.map asciiLowerChar⟩

def isSpaceChar (c : Char) : Bool := c = ' ' ∨ c = '\t' ∨ c = '\n' ∨ c = '\r'

def pyStrip (s : String) : String :=
  ⟨(((s.data.dropWhile isSpaceChar).reverse.dropWhile isSpaceChar).reverse)⟩

def digitChar (d : ℕ) : Char :=
  if d = 0 then '0' else if d = 1 then '1' else if d = 2 then '2'
  else if d = 3 then '3' else if d = 4 then '4' else if d = 5 then '5'
  else if d = 6 then '6' else if d = 7 then '7' else if d = 8 then '8' else '9'

def natDigits : ℕ → ℕ → List Char
  | 0, _ => []
  | _ + 1, n => if n < 10 then [digitChar n] else natDigits n (n / 10) ++ [digitChar (n % 10)]

/-- Decimal rendering of a natural number (Python `str(i)` for the small
indices interpolated into room names). -/
def natStr (n : ℕ) : String := ⟨natDigits (n + 1) n⟩

/-! ## Data model (`models.py`) -/

structure Room where
  id : String
  name : String
  type : String
  x : ℚ
  y : ℚ
  width : ℚ
  depth : ℚ
deriving DecidableEq

/-- `Room.area` property: `round(width * depth, 2)`. -/
def Room.area (r : Room) : ℚ := round2 (qmul r.width r.depth)

structure Column where
  x : ℚ
  y : ℚ
deriving DecidableEq

structure FloorPlan where
  floor : ℤ
  floor_type : String := "ground"
  rooms : List Room := []
  columns : List Column := []
  needs_mech_ventilation : Bool := false
deriving DecidableEq

/-- Violation / warning messages.  The Python code appends formatted
strings; each distinct format template in `compliance.py` / `vastu.py` is
one constructor here, carrying the interpolated values. -/
inductive Msg where
  | plot_length_min (plot_length min_length : ℚ)
  | plot_width_min (plot_width min_width : ℚ)
  | bed_area_min (name : String) (area min_area : ℚ)
  | bed_width_rec (name : String) (w min_w : ℚ)
  | kitchen_area_min (name : String) (area min_area : ℚ)
  | kitchen_width_rec (name : String) (w min_w : ℚ)
  | toilet_area_min (name : String) (area min_area : ℚ)
  | toilet_width_rec (name : String) (w min_w : ℚ)
  | stair_width_min (w min_w : ℚ)
  | beam_span (name : String) (span max_span : ℚ)
  | coverage_max (pct max_pct : ℚ)
  | far_exceeded (far limit : ℚ) (city : String) (road_width : ℚ)
  | outside_horizontal (name : String)
  | outside_vertical (name : String)
  | window_hint (name : String) (required : ℚ)
  | vastu_prohibit (room_name zone_name room_type notes : String)
  | vastu_avoid (room_name zone_name room_type notes : String)
  | vastu_kitchen_zone (zone : String)
  | vastu_pooja_zone (zone : String)
  | vastu_master_zone (room_name zone : String)
deriving DecidableEq

structure ComplianceResult where
  passed : Bool
  violations : List Msg := []
  warnings : List Msg := []
deriving DecidableEq

structure LayoutScore where
  total : ℚ
  natural_light : ℚ
  adjacency : ℚ
  aspectRatio : ℚ
  circulation : ℚ
  vastu : ℚ
deriving DecidableEq

structure Layout where
  id : String
  name : String
  ground_floor : FloorPlan
  first_floor : FloorPlan
  compliance : ComplianceResult
  second_floor : Option FloorPlan := none
  basement_floor : Option FloorPlan := none
  score : Option LayoutScore := none
deriving DecidableEq

/-- One entry of `PlotConfig.custom_room_config` (a Python dict read with
`.get` and defaults; optional keys are `Option` fields). -/
structure CustomRoom where
  ctype : Option String := none
  cname : Option String := none
  floor_preference : Option String := none
  min_area_sqm : Option ℚ := none
deriving DecidableEq

structure PlotConfig where
  plot_length : ℚ
  plot_width : ℚ
  setback_front : ℚ
  setback_rear : ℚ
  setback_left : ℚ
  setback_right : ℚ
  num_bedrooms : ℕ
  toilets : ℕ
  parking : Bool
  city : String := "other"
  vastu_enabled : Bool := false
  road_width_m : ℚ := 9
  road_side : String := "S"
  has_pooja : Bool := false
  has_study : Bool := false
  has_balcony : Bool := false
  plot_shape : String := "rectangular"
  plot_front_width : ℚ := 0
  plot_rear_width : ℚ := 0
  plot_side_offset : ℚ := 0
  num_floors : ℕ := 1
  has_stilt : Bool := false
  has_basement : Bool := false
  custom_room_config : List CustomRoom := []
deriving DecidableEq

structure FloorPlate where
  ox : ℚ
  oy : ℚ
  width : ℚ
  depth : ℚ
deriving DecidableEq

/-! ## Directional zoning checker (`vastu.py`) -/

def ZONE_GRID_ROAD_S : List (List String) :=
  [["NW", "N", "NE"], ["W", "C", "E"], ["SW", "S", "SE"]]

def ZONE_GRID_ROAD_N : List (List String) :=
  [["SE", "S", "SW"], ["E", "C", "W"], ["NE", "N", "NW"]]

def ZONE_GRID_ROAD_E : List (List String) :=
  [["NE", "E", "SE"], ["N", "C", "S"], ["NW", "W", "SW"]]

def ZONE_GRID_ROAD_W : List (List String) :=
  [["SW", "W", "NW"], ["S", "C", "N"], ["SE", "E", "NE"]]

/-- The `ZONE_GRIDS` dict, as a partial lookup. -/
def zone_grids (key : String) : Option (List (List String)) :=
  if key = "S" then some ZONE_GRID_ROAD_S
  else if key = "N" then some ZONE_GRID_ROAD_N
  else if key = "E" then some ZONE_GRID_ROAD_E
  else if key = "W" then some ZONE_GRID_ROAD_W
  else none

structure VastuRule where
  preferred : List String
  avoid : List String
  prohibit : List String
  zname : String
  notes : String
deriving DecidableEq

/-- `VASTU_RULES` dict; the default `{}` of `VASTU_RULES.get(zone, {})`
is the empty rule. -/
def VASTU_RULES (zone : String) : VastuRule :=
  if zone = "NE" then
    ⟨["pooja", "utility", "balcony", "staircase"], ["bedroom", "parking"],
     ["kitchen", "toilet"], "Ishanya (NE)",
     "Sacred zone - ideal for Pooja, open space, water"⟩
  else if zone = "E" then
    ⟨["bedroom", "dining", "bathroom", "toilet"], [], [], "Purva (E)",
     "East - sunrise zone, good for bedrooms and dining"⟩
  else if zone = "SE" then
    ⟨["kitchen"], ["bedroom", "pooja"], ["toilet"], "Agni (SE)",
     "Fire zone - kitchen must be here or NW"⟩
  else if zone = "S" then
    ⟨["bedroom", "parking"], ["pooja", "living"], [], "Yama (S)",
     "South - guest bedroom, parking; avoid main entrance"⟩
  else if zone = "SW" then
    ⟨["bedroom"], ["pooja", "balcony"], ["toilet", "kitchen"], "Nairutya (SW)",
     "Most stable corner - master bedroom, heavy storage"⟩
  else if zone = "W" then
    ⟨["bedroom", "study", "dining"], [], [], "Varuna (W)",
     "West - children bedroom, study"⟩
  else if zone = "NW" then
    ⟨["bedroom", "toilet", "utility", "parking"], [], [], "Vayu (NW)",
     "Air zone - guest room, toilet, storage acceptable"⟩
  else if zone = "N" then
    ⟨["living", "study", "dining"], ["kitchen", "toilet"], [], "Kubera (N)",
     "Wealth direction - living, study, treasury"⟩
  else if zone = "C" then
    ⟨["utility"], ["bedroom", "kitchen"], ["toilet"], "Brahmasthan (Centre)",
     "Sacred centre - should remain open or light use only"⟩
  else ⟨[], [], [], "", ""⟩

/-- `_get_zone`: map a room centre point to one of 9 zones. -/
def get_zone (cx cy plot_w plot_l : ℚ) (road_side : String) : String :=
  let grid := (zone_grids (asciiUpper road_side)).getD ZONE_GRID_ROAD_S
  let col : ℕ := if cx < qdiv plot_w 3 then 0 else if cx < qdiv (qmul 2 plot_w) 3 then 1 else 2
  let row : ℕ := if qdiv (qmul 2 plot_l) 3 < cy then 0 else if qdiv plot_l 3 < cy then 1 else 2
  (grid.getD row []).getD col ""

/-- `check_vastu`: returns `(violations, warnings)`. -/
def check_vastu (layout : Layout) (cfg : PlotConfig) (road_side : String) :
    List Msg × List Msg :=
  if !cfg.vastu_enabled then ([], []) else
  let plot_w := cfg.plot_width
  let plot_l := cfg.plot_length
  let zoneOf : Room → String := fun room =>
    get_zone (qadd room.x (qdiv room.width 2)) (qadd room.y (qdiv room.depth 2))
      plot_w plot_l road_side
  let violations := (layout.ground_floor.rooms.map (fun room =>
    let rules := VASTU_RULES (zoneOf room)
    if room.type ∈ rules.prohibit then
      [Msg.vastu_prohibit room.name rules.zname room.type rules.notes]
    else [])).join
  let avoid_warnings := (layout.ground_floor.rooms.map (fun room =>
    let rules := VASTU_RULES (zoneOf room)
    if room.type ∉ rules.prohibit ∧ room.type ∈ rules.avoid then
      [Msg.vastu_avoid room.name rules.zname room.type rules.notes]
    else [])).join
  let kitchens := layout.ground_floor.rooms.filter (fun r => r.type == "kitchen")
  let kitchen_warnings := (kitchens.map (fun k =>
    let z := zoneOf k
    if z ≠ "SE" ∧ z ≠ "NW" ∧ z ≠ "E" then [Msg.vastu_kitchen_zone z] else [])).join
  let poojas := layout.ground_floor.rooms.filter (fun r => r.type == "pooja")
  let pooja_warnings := (poojas.map (fun p =>
    let z := zoneOf p
    if z ≠ "NE" ∧ z ≠ "N" ∧ z ≠ "E" then [Msg.vastu_pooja_zone z] else [])).join
  let bedrooms := layout.ground_floor.rooms.filter (fun r => r.type == "bedroom")
  let master_warnings := match bedrooms with
    | [] => []
    | b :: _ =>
      let z := zoneOf b
      if z ≠ "SW" ∧ z ≠ "S" ∧ z ≠ "W" then [Msg.vastu_master_zone b.name z] else []
  (violations, avoid_warnings ++ kitchen_warnings ++ pooja_warnings ++ master_warnings)

/-! ## Compliance checker (`compliance.py`) -/

/-- The `compliance_rules.json` table (externally supplied data, keys per
the design spec). -/
structure Rules where
  min_plot_length_m : ℚ
  min_plot_width_m : ℚ
  min_bedroom_sqm : ℚ
  min_bedroom_width_m : ℚ
  min_kitchen_sqm : ℚ
  min_kitchen_width_m : ℚ
  min_toilet_sqm : ℚ
  min_toilet_width_m : ℚ
  min_stair_width_mm : ℚ
  max_beam_span_m : ℚ
  max_floor_coverage_pct : ℚ
  external_wall_thickness_mm : ℚ
  internal_wall_thickness_mm : ℚ
  min_window_to_floor_ratio : ℚ
  default_far : ℚ
deriving DecidableEq

structure FarRow where
  road_width_max_m : ℚ
  far : ℚ
deriving DecidableEq

/-- The `city_rules.json` table restricted to the part `check` uses:
city key → `far_by_road_width` rows. -/
def CityData : Type := List (String × List FarRow)

instance : DecidableEq CityData := by
  unfold CityData
  infer_instance

/-- `get_city_far`: first FAR row whose road-width threshold is not
exceeded; unknown cities fall back to key `"other"`. -/
def get_city_far (city : String) (road_width_m : ℚ) (city_data : CityData) : Option ℚ :=
  let ckey := pyStrip (asciiLower city)
  let city_key := if (city_data.lookup ckey).isSome then ckey else "other"
  let table := (city_data.lookup city_key).getD []
  (table.find? (fun row => decide (road_width_m ≤ row.road_width_max_m))).map FarRow.far

/-- `compliance.check`.  Only the ground- and first-floor rooms are read
from the layout (`all_rooms = ground + first`, line 60 of the source). -/
def check (layout : Layout) (cfg : PlotConfig) (rules : Rules) (city_data : CityData) :
    ComplianceResult :=
  let v_plot :=
    (if cfg.plot_length < rules.min_plot_length_m then
      [Msg.plot_length_min cfg.plot_length rules.min_plot_length_m] else []) ++
    (if cfg.plot_width < rules.min_plot_width_m then
      [Msg.plot_width_min cfg.plot_width rules.min_plot_width_m] else [])
  let all_rooms := layout.ground_floor.rooms ++ layout.first_floor.rooms
  let min_stair_w := qdiv rules.min_stair_width_mm 1000
  let v_rooms := (all_rooms.map (fun room =>
    (if room.type = "bedroom" ∧ room.area < rules.min_bedroom_sqm then
      [Msg.bed_area_min room.name room.area rules.min_bedroom_sqm] else []) ++
    (if room.type = "kitchen" ∧ room.area < rules.min_kitchen_sqm then
      [Msg.kitchen_area_min room.name room.area rules.min_kitchen_sqm] else []) ++
    (if room.type = "toilet" ∧ room.area < rules.min_toilet_sqm then
      [Msg.toilet_area_min room.name room.area rules.min_toilet_sqm] else []))).join
  let w_rooms := (all_rooms.map (fun room =>
    (if room.type = "bedroom" ∧ qmin room.width room.depth < rules.min_bedroom_width_m then
      [Msg.bed_width_rec room.name (qmin room.width room.depth) rules.min_bedroom_width_m]
     else []) ++
    (if room.type = "kitchen" ∧ qmin room.width room.depth < rules.min_kitchen_width_m then
      [Msg.kitchen_width_rec room.name (qmin room.width room.depth) rules.min_kitchen_width_m]
     else []) ++
    (if room.type = "toilet" ∧ qmin room.width room.depth < rules.min_toilet_width_m then
      [Msg.toilet_width_rec room.name (qmin room.width room.depth) rules.min_toilet_width_m]
     else []))).join
  let v_stairs := (all_rooms.map (fun room =>
    if room.type = "staircase" ∧ room.width < min_stair_w ∧ room.depth < min_stair_w then
      [Msg.stair_width_min room.width min_stair_w] else [])).join
  let w_beam := (layout.ground_floor.rooms.map (fun room =>
    if rules.max_beam_span_m < room.width then
      [Msg.beam_span room.name room.width rules.max_beam_span_m] else [])).join
  let buildable_w := qsub (qsub cfg.plot_width cfg.setback_left) cfg.setback_right
  let buildable_d := qsub (qsub cfg.plot_length cfg.setback_front) cfg.setback_rear
  let footprint := qmul buildable_w buildable_d
  let plot_area := qmul cfg.plot_width cfg.plot_length
  let coverage_pct := qmul (qdiv footprint plot_area) 100
  let v_cov := if rules.max_floor_coverage_pct < coverage_pct then
      [Msg.coverage_max coverage_pct rules.max_floor_coverage_pct] else []
  let total_built := qmul footprint 2
  let far_limit := (get_city_far cfg.city cfg.road_width_m city_data).getD rules.default_far
  let actual_far := qdiv total_built plot_area
  let w_far := if qadd far_limit (mkRat 1 100) < actual_far then
      [Msg.far_exceeded actual_far far_limit cfg.city cfg.road_width_m] else []
  let ewt := qdiv rules.external_wall_thickness_mm 1000
  let min_x := qadd cfg.setback_left ewt
  let max_x := qsub (qsub cfg.plot_width cfg.setback_right) ewt
  let min_y := qadd cfg.setback_front ewt
  let max_y := qsub (qsub cfg.plot_length cfg.setback_rear) ewt
  let tol : ℚ := mkRat 5 1000
  let v_bounds := (all_rooms.map (fun room =>
    (if room.x < qsub min_x tol ∨ qadd max_x tol < qadd room.x room.width then
      [Msg.outside_horizontal room.name] else []) ++
    (if room.y < qsub min_y tol ∨ qadd max_y tol < qadd room.y room.depth then
      [Msg.outside_vertical room.name] else []))).join
  let w_window := (all_rooms.map (fun room =>
    if (room.type = "bedroom" ∨ room.type = "living" ∨ room.type = "study" ∨
        room.type = "dining") ∧ room.area < 10 then
      [Msg.window_hint room.name (qmul room.area rules.min_window_to_floor_ratio)]
    else [])).join
  let violations := v_plot ++ v_rooms ++ v_stairs ++ v_cov ++ v_bounds
  let warnings := w_rooms ++ w_beam ++ w_far ++ w_window
  { passed := violations.isEmpty, violations := violations, warnings := warnings }

/-! ## Scorer (`scorer.py`) -/

def HABITABLE : List String :=
  ["living", "bedroom", "master_bedroom", "kitchen", "dining", "study",
   "home_office", "gym", "servant_quarter"]

def scorer_ADJACENCY_PAIRS : List (String × String × ℚ) :=
  [("kitchen", "dining", 15), ("bedroom", "toilet", 12),
   ("master_bedroom", "toilet", 12), ("living", "staircase", 8),
   ("living", "dining", 10)]

def MAX_ADJACENCY : ℚ := scorer_ADJACENCY_PAIRS.foldl (fun acc p => qadd acc p.2.2) 0

/-- `_shares_wall`: pure geometric adjacency test. -/
def shares_wall (a b : Room) (tol : ℚ := mkRat 5 100) : Bool :=
  let x_ov := qmax 0 (qsub (qmin (qadd a.x a.width) (qadd b.x b.width)) (qmax a.x b.x))
  let y_ov := qmax 0 (qsub (qmin (qadd a.y a.depth) (qadd b.y b.depth)) (qmax a.y b.y))
  let abuts_x := decide (qabs (qsub (qadd a.x a.width) b.x) < mkRat 2 10) ||
                 decide (qabs (qsub (qadd b.x b.width) a.x) < mkRat 2 10)
  let abuts_y := decide (qabs (qsub (qadd a.y a.depth) b.y) < mkRat 2 10) ||
                 decide (qabs (qsub (qadd b.y b.depth) a.y) < mkRat 2 10)
  (abuts_x && decide (tol < y_ov)) || (abuts_y && decide (tol < x_ov))

/-- `_touches_boundary`. -/
def touches_boundary (room : Room) (cfg : PlotConfig) (ewt : ℚ) (tol : ℚ := mkRat 1 10) :
    Bool :=
  let bx_min := qadd cfg.setback_left ewt
  let bx_max := qsub (qsub cfg.plot_width cfg.setback_right) ewt
  let by_min := qadd cfg.setback_front ewt
  let by_max := qsub (qsub cfg.plot_length cfg.setback_rear) ewt
  decide (qabs (qsub room.x bx_min) < tol) ||
  decide (qabs (qsub (qadd room.x room.width) bx_max) < tol) ||
  decide (qabs (qsub room.y by_min) < tol) ||
  decide (qabs (qsub (qadd room.y room.depth) by_max) < tol)

def score_natural_light (layout : Layout) (cfg : PlotConfig) (ewt : ℚ) : ℚ :=
  let all_rooms := layout.ground_floor.rooms ++ layout.first_floor.rooms
  let habitable := all_rooms.filter (fun r => HABITABLE.contains r.type)
  if habitable.isEmpty then 0
  else
    let lit := (habitable.filter (fun r => touches_boundary r cfg ewt)).length
    qdiv (qmul 100 (lit : ℚ)) (habitable.length : ℚ)

def score_adjacency (layout : Layout) : ℚ :=
  let all_rooms := layout.ground_floor.rooms ++ layout.first_floor.rooms
  let earned := scorer_ADJACENCY_PAIRS.foldl (fun acc p =>
    let rs1 := all_rooms.filter (fun r => r.type == p.1)
    let rs2 := all_rooms.filter (fun r => r.type == p.2.1)
    if rs1.any (fun a => rs2.any (fun b => shares_wall a b)) then qadd acc p.2.2 else acc) 0
  if MAX_ADJACENCY = 0 then 0
  else qmin 100 (qdiv (qmul 100 earned) MAX_ADJACENCY)

def score_aspect (layout : Layout) : ℚ :=
  let all_rooms := layout.ground_floor.rooms ++ layout.first_floor.rooms
  let habitable := all_rooms.filter (fun r => HABITABLE.contains r.type)
  if habitable.isEmpty then 100
  else
    let penalty := habitable.foldl (fun acc r =>
      let ratio := qdiv (qmax r.width r.depth) (qmax (qmin r.width r.depth) (mkRat 1 100))
      if 2 < ratio then qadd acc (qmul (qsub ratio 2) 10) else acc) 0
    qmax 0 (qsub 100 (qdiv penalty (habitable.length : ℚ)))

def score_circulation (layout : Layout) (cfg : PlotConfig) (ewt : ℚ) : ℚ :=
  let all_rooms := layout.ground_floor.rooms ++ layout.first_floor.rooms
  let total_room_area := all_rooms.foldl (fun acc r => qadd acc r.area) 0
  let bw := qsub (qsub (qsub cfg.plot_width cfg.setback_left) cfg.setback_right)
      (qmul 2 ewt)
  let bd := qsub (qsub (qsub cfg.plot_length cfg.setback_front) cfg.setback_rear)
      (qmul 2 ewt)
  let buildable_area := qmax (qmul (qmul bw bd) 2) (mkRat 1 100)
  let fill_ratio := qdiv total_room_area buildable_area
  if fill_ratio < mkRat 6 10 then qmul (qdiv fill_ratio (mkRat 6 10)) 100
  else if fill_ratio ≤ mkRat 9 10 then 100
  else qmax 0 (qsub 100 (qmul (qsub fill_ratio (mkRat 9 10)) 200))

def score_vastu (layout : Layout) (cfg : PlotConfig) : ℚ :=
  if !cfg.vastu_enabled then 100
  else
    let vw := check_vastu layout cfg cfg.road_side
    qmax 0 (qsub (qsub 100 (qmul (vw.1.length : ℚ) 20)) (qmul (vw.2.length : ℚ) 5))

/-- Python's `round(x, 1)`. -/
def round1 (x : ℚ) : ℚ := qdiv ((roundHalfEven (qmul x 10) : ℤ) : ℚ) 10

def score_layout (layout : Layout) (cfg : PlotConfig) (rules : Rules) : LayoutScore :=
  let ewt := qdiv rules.external_wall_thickness_mm 1000
  let nl := score_natural_light layout cfg ewt
  let adj := score_adjacency layout
  let ar := score_aspect layout
  let cir := score_circulation layout cfg ewt
  let vas := score_vastu layout cfg
  let total := qadd (qadd (qadd (qadd (qmul (mkRat 25 100) nl) (qmul (mkRat 25 100) adj))
      (qmul (mkRat 20 100) ar)) (qmul (mkRat 15 100) cir)) (qmul (mkRat 15 100) vas)
  { total := round1 total, natural_light := round1 nl, adjacency := round1 adj,
    aspectRatio := round1 ar, circulation := round1 cir, vastu := round1 vas }

/-- Stable descending insertion by score key: an element is inserted
after all existing elements with an equal or larger key.  Extensionally
equal to Python's stable `list.sort(key=…, reverse=True)`. -/
def insert_desc (x : ℚ × Layout) : List (ℚ × Layout) → List (ℚ × Layout)
  | [] => [x]
  | y :: ys => if y.1 < x.1 then x :: y :: ys else y :: insert_desc x ys

def sort_desc (l : List (ℚ × Layout)) : List (ℚ × Layout) :=
  l.foldl (fun acc x => insert_desc x acc) []

/-- `rank_and_select`: score every layout, attach the score, return the
`top_n` best by descending total. -/
def rank_and_select (layouts : List Layout) (cfg : PlotConfig) (rules : Rules)
    (top_n : ℕ := 3) : List Layout :=
  let scored := layouts.map (fun l =>
    let s := score_layout l cfg rules
    (s.total, { l with score := some s }))
  ((sort_desc scored).take top_n).map Prod.snd

/-! ## Archetype generators (`archetypes.py`) -/

def EWT : ℚ := mkRat 23 100

def IWT : ℚ := mkRat 115 1000

def STAIR_W : ℚ := mkRat 9 10

def STAIR_D : ℚ := 3

def PARK_W : ℚ := mkRat 275 100

def POOJA_W : ℚ := mkRat 15 10

def POOJA_D : ℚ := mkRat 15 10

def STUDY_W : ℚ := mkRat 25 10

def trapezoid_floor_plate (cfg : PlotConfig) (ewt : ℚ) : FloorPlate :=
  { ox := qadd cfg.setback_left ewt, oy := qadd cfg.setback_front ewt,
    width := qsub (qsub (qsub (qmin cfg.plot_front_width cfg.plot_rear_width)
      cfg.setback_left) cfg.setback_right) (qmul 2 ewt),
    depth := qsub (qsub (qsub cfg.plot_length cfg.setback_front) cfg.setback_rear)
      (qmul 2 ewt) }

def floor_plate (cfg : PlotConfig) (ewt : ℚ) : FloorPlate :=
  if cfg.plot_shape = "trapezoid" ∧ 0 < cfg.plot_front_width ∧ 0 < cfg.plot_rear_width then
    trapezoid_floor_plate cfg ewt
  else
    { ox := qadd cfg.setback_left ewt, oy := qadd cfg.setback_front ewt,
      width := qsub (qsub (qsub cfg.plot_width cfg.setback_left) cfg.setback_right)
        (qmul 2 ewt),
      depth := qsub (qsub (qsub cfg.plot_length cfg.setback_front) cfg.setback_rear)
        (qmul 2 ewt) }

/-- `_r`: build a room with coordinates rounded to millimetres. -/
def mkRoom (room_id nm rtype : String) (x y w d : ℚ) : Room :=
  { id := room_id, name := nm, type := rtype,
    x := round3 x, y := round3 y, width := round3 w, depth := round3 d }

def insertSortedQ (x : ℚ) : List ℚ → List ℚ
  | [] => [x]
  | y :: ys => if x < y then x :: y :: ys else if x = y then y :: ys else y :: insertSortedQ x ys

/-- `sorted(set(...))` over rationals. -/
def sortedUnique (l : List ℚ) : List ℚ := l.foldl (fun acc x => insertSortedQ x acc) []

/-- `_columns_from_rooms`: a column at every intersection of room wall lines. -/
def columns_from_rooms (rooms : List Room) : List Column :=
  let xs := sortedUnique (rooms.map (fun r => r.x) ++ rooms.map (fun r => qadd r.x r.width))
  let ys := sortedUnique (rooms.map (fun r => r.y) ++ rooms.map (fun r => qadd r.y r.depth))
  (xs.map (fun x => ys.map (fun y => Column.mk (round3 x) (round3 y)))).join

/-- `_bed_rooms_ff`: allocate `n` bedrooms across the first-floor width. -/
def bed_rooms_ff (n : ℕ) (ox bed_y W d_bed iwt : ℚ) (fprefx : String := "ff") :
    List Room :=
  if n = 1 then
    [mkRoom (fprefx ++ "_bed_1") "Bedroom 1" "bedroom" ox bed_y W d_bed]
  else if n = 2 then
    let bw := qdiv (qsub W iwt) 2
    [mkRoom (fprefx ++ "_bed_1") "Bedroom 1" "bedroom" ox bed_y bw d_bed,
     mkRoom (fprefx ++ "_bed_2") "Bedroom 2" "bedroom" (qadd (qadd ox bw) iwt) bed_y
       (qsub (qsub W bw) iwt) d_bed]
  else if n = 3 then
    let bw := qdiv (qsub W (qmul 2 iwt)) 3
    [mkRoom (fprefx ++ "_bed_1") "Bedroom 1" "bedroom" ox bed_y bw d_bed,
     mkRoom (fprefx ++ "_bed_2") "Bedroom 2" "bedroom" (qadd (qadd ox bw) iwt) bed_y
       bw d_bed,
     mkRoom (fprefx ++ "_bed_3") "Bedroom 3" "bedroom"
       (qadd ox (qmul 2 (qadd bw iwt))) bed_y (qsub W (qmul 2 (qadd bw iwt))) d_bed]
  else
    let bw := qdiv (qsub W (qmul 2 iwt)) 3
    let half_d := qsub (qdiv d_bed 2) (qdiv iwt 2)
    [mkRoom (fprefx ++ "_bed_1") "Bedroom 1" "bedroom" ox bed_y bw half_d,
     mkRoom (fprefx ++ "_bed_2") "Bedroom 2" "bedroom"
       (qadd ox (qmul 1 (qadd bw iwt))) bed_y bw half_d,
     mkRoom (fprefx ++ "_bed_3") "Bedroom 3" "bedroom"
       (qadd ox (qmul 2 (qadd bw iwt))) bed_y bw half_d,
     mkRoom (fprefx ++ "_bed_4") "Bedroom 4" "bedroom" ox
       (qadd (qadd bed_y half_d) iwt) W (qsub (qsub d_bed half_d) iwt)]

/-- Layout A - Front Staircase. -/
def layout_a (cfg : PlotConfig) (ewt : ℚ := EWT) (iwt : ℚ := IWT) : Layout :=
  let fp := floor_plate cfg ewt
  let ox := fp.ox
  let oy := fp.oy
  let W := fp.width
  let D := fp.depth
  let n_beds := cfg.num_bedrooms
  let d_stair := STAIR_D
  let d_service := qmax 3 (qdiv (mkRat 45 10) (qmax (qmul W (mkRat 55 100)) (mkRat 1 10)))
  let d_living := qsub (qsub (qsub D d_stair) d_service) (qmul 2 iwt)
  let k_w := qmax (qmul W (mkRat 55 100)) (qdiv (mkRat 45 10) d_service)
  let t_w := qsub (qsub W k_w) iwt
  let gf_stair := [mkRoom "gf_stair" "Staircase" "staircase" ox oy STAIR_W d_stair]
  let gf_front :=
    if cfg.parking then
      [mkRoom "gf_parking" "Parking" "parking" (qadd (qadd ox STAIR_W) iwt) oy PARK_W
        d_stair] ++
      (let foyer_x := qadd (qadd (qadd (qadd ox STAIR_W) iwt) PARK_W) iwt
       let foyer_w := qsub (qsub (qsub (qsub W STAIR_W) iwt) PARK_W) iwt
       if mkRat 3 10 < foyer_w then
         [mkRoom "gf_foyer" "Foyer" "utility" foyer_x oy foyer_w d_stair] else [])
    else
      [mkRoom "gf_entry" "Entry / Foyer" "utility" (qadd (qadd ox STAIR_W) iwt) oy
        (qsub (qsub W STAIR_W) iwt) d_stair]
  let living_y := qadd (qadd oy d_stair) iwt
  let gf_mid :=
    if n_beds = 4 then
      let d_living_zone := qmul d_living (mkRat 55 100)
      let d_gf_bed := qsub (qsub d_living d_living_zone) iwt
      let gf_bed_y := qadd (qadd living_y d_living_zone) iwt
      [mkRoom "gf_living" "Living / Hall" "living" ox living_y W d_living_zone,
       mkRoom "gf_bed_m" "Master Bedroom" "bedroom" ox gf_bed_y (qmul W (mkRat 6 10))
         d_gf_bed] ++
      (if 1 < qsub (qmul W (mkRat 4 10)) iwt then
        [mkRoom "gf_dining" "Dining" "dining" (qadd (qadd ox (qmul W (mkRat 6 10))) iwt)
          gf_bed_y (qsub (qmul W (mkRat 4 10)) iwt) d_gf_bed] else [])
    else
      [mkRoom "gf_living" "Living / Hall" "living" ox living_y W d_living]
  let svc_y := qsub (qadd oy D) d_service
  let gf_rear :=
    if cfg.has_pooja ∧ qadd (qadd POOJA_W iwt) 1 < t_w then
      [mkRoom "gf_kitchen" "Kitchen" "kitchen" ox svc_y k_w d_service,
       mkRoom "gf_pooja" "Pooja Room" "pooja" (qadd (qadd ox k_w) iwt) svc_y POOJA_W
         d_service] ++
      (let remaining_w := qsub (qsub t_w POOJA_W) iwt
       if mkRat 1 2 < remaining_w then
         [mkRoom "gf_toilet_1" "Toilet 1" "toilet"
           (qadd (qadd (qadd (qadd ox k_w) iwt) POOJA_W) iwt) svc_y remaining_w d_service]
       else [])
    else
      [mkRoom "gf_kitchen" "Kitchen" "kitchen" ox svc_y k_w d_service] ++
      (if mkRat 1 2 < t_w then
        [mkRoom "gf_toilet_1" "Toilet 1" "toilet" (qadd (qadd ox k_w) iwt) svc_y t_w
          d_service] else [])
  let gf_rooms := gf_stair ++ gf_front ++ gf_mid ++ gf_rear
  let ff_stair := [mkRoom "ff_stair" "Staircase" "staircase" ox oy STAIR_W d_stair]
  let wc2_w := qsub (qsub W STAIR_W) iwt
  let ff_front :=
    if 2 ≤ cfg.toilets then
      [mkRoom "ff_toilet_2" "Toilet 2" "toilet" (qadd (qadd ox STAIR_W) iwt) oy wc2_w
        d_stair]
    else
      [mkRoom "ff_landing" "Landing" "utility" (qadd (qadd ox STAIR_W) iwt) oy wc2_w
        d_stair]
  let bed_y := qadd (qadd oy d_stair) iwt
  let d_bed := qsub (qsub D d_stair) iwt
  let bed_count := if n_beds = 4 then min n_beds 3 else n_beds
  let ff_beds :=
    if cfg.has_study ∧ mkRat 35 10 < d_bed ∧ qadd (qadd STUDY_W iwt) 3 < W then
      let d_study := qmin d_bed 3
      [mkRoom "ff_study" "Study" "study" (qsub (qadd ox W) STUDY_W) bed_y STUDY_W
        d_study] ++
      bed_rooms_ff bed_count ox bed_y (qsub (qsub W STUDY_W) iwt) d_bed iwt "ff"
    else
      bed_rooms_ff bed_count ox bed_y W d_bed iwt "ff"
  let ff_base := ff_stair ++ ff_front ++ ff_beds
  let ff_rooms :=
    if cfg.has_balcony ∧ mkRat 25 10 < d_bed then
      let bal_d := mkRat 12 10
      (ff_base.map (fun rm =>
        if rm.type = "bedroom" ∧ qabs (qsub rm.y bed_y) < mkRat 1 100 then
          { rm with depth := round3 (qsub (qsub rm.depth bal_d) iwt) }
        else rm)) ++
      [mkRoom "ff_balcony" "Balcony" "balcony" ox (qadd bed_y (qsub d_bed bal_d)) W bal_d]
    else ff_base
  { id := "A", name := "Front Staircase",
    ground_floor := { floor := 0, rooms := gf_rooms,
                      columns := columns_from_rooms gf_rooms },
    first_floor := { floor := 1, rooms := ff_rooms,
                     columns := columns_from_rooms ff_rooms },
    compliance := { passed := true } }

/-- Layout B - Centre Staircase. -/
def layout_b (cfg : PlotConfig) (ewt : ℚ := EWT) (iwt : ℚ := IWT) : Layout :=
  let fp := floor_plate cfg ewt
  let ox := fp.ox
  let oy := fp.oy
  let W := fp.width
  let D := fp.depth
  let n_beds := cfg.num_bedrooms
  let d_front := qmul D (mkRat 4 10)
  let d_stair := STAIR_D
  let d_rear := qsub (qsub (qsub D d_front) d_stair) (qmul 2 iwt)
  let stair_y := qadd (qadd oy d_front) iwt
  let rear_y := qadd (qadd stair_y d_stair) iwt
  let gf_front :=
    if cfg.parking then
      [mkRoom "gf_parking" "Parking" "parking" ox oy PARK_W d_front,
       mkRoom "gf_living" "Living / Hall" "living" (qadd (qadd ox PARK_W) iwt) oy
         (qsub (qsub W PARK_W) iwt) d_front]
    else
      [mkRoom "gf_living" "Living / Hall" "living" ox oy W d_front]
  let wc_w := qsub (qsub W STAIR_W) iwt
  let gf_mid :=
    [mkRoom "gf_stair" "Staircase" "staircase" ox stair_y STAIR_W d_stair,
     mkRoom "gf_toilet_1" "Toilet 1" "toilet" (qadd (qadd ox STAIR_W) iwt) stair_y wc_w
       d_stair]
  let gf_rear :=
    if cfg.has_pooja ∧ 4 < W then
      let k_w := qsub (qsub W POOJA_W) iwt
      [mkRoom "gf_kitchen" "Kitchen" "kitchen" ox rear_y k_w d_rear,
       mkRoom "gf_pooja" "Pooja Room" "pooja" (qadd (qadd ox k_w) iwt) rear_y POOJA_W
         d_rear]
    else
      [mkRoom "gf_kitchen" "Kitchen" "kitchen" ox rear_y W d_rear]
  let gf_extra :=
    if n_beds = 4 ∧ 3 < d_rear then
      [mkRoom "gf_dining" "Dining" "dining" ox rear_y W (qmul d_rear (mkRat 1 2)),
       mkRoom "gf_bed_m" "Master Bedroom" "bedroom" ox
         (qadd (qadd rear_y (qmul d_rear (mkRat 1 2))) iwt) W
         (qsub (qmul d_rear (mkRat 1 2)) iwt)]
    else []
  let gf_rooms := gf_front ++ gf_mid ++ gf_rear ++ gf_extra
  let bed_count := if 3 ≤ n_beds then min n_beds 3 else n_beds
  let bw := if bed_count ≤ 2 then qdiv (qsub W iwt) 2 else qdiv (qsub W (qmul 2 iwt)) 3
  let ff_front :=
    if bed_count = 1 then
      [mkRoom "ff_bed_1" "Bedroom 1" "bedroom" ox oy W d_front]
    else if bed_count = 2 then
      [mkRoom "ff_bed_1" "Bedroom 1" "bedroom" ox oy bw d_front,
       mkRoom "ff_bed_2" "Bedroom 2" "bedroom" (qadd (qadd ox bw) iwt) oy
         (qsub (qsub W bw) iwt) d_front]
    else
      [mkRoom "ff_bed_1" "Bedroom 1" "bedroom" ox oy bw d_front,
       mkRoom "ff_bed_2" "Bedroom 2" "bedroom" (qadd (qadd ox bw) iwt) oy bw d_front]
  let ff_mid :=
    [mkRoom "ff_stair" "Staircase" "staircase" ox stair_y STAIR_W d_stair] ++
    (if 2 ≤ cfg.toilets then
      [mkRoom "ff_toilet_2" "Toilet 2" "toilet" (qadd (qadd ox STAIR_W) iwt) stair_y wc_w
        d_stair]
     else
      [mkRoom "ff_landing" "Landing" "utility" (qadd (qadd ox STAIR_W) iwt) stair_y wc_w
        d_stair])
  let ff_rear :=
    if 3 ≤ n_beds then
      [mkRoom "ff_bed_3" "Bedroom 3" "bedroom" ox rear_y W d_rear]
    else if cfg.has_study then
      [mkRoom "ff_study" "Study" "study" ox rear_y W d_rear]
    else
      [mkRoom "ff_utility" "Study / Utility" "utility" ox rear_y W d_rear]
  let ff_rooms := ff_front ++ ff_mid ++ ff_rear
  { id := "B", name := "Centre Staircase",
    ground_floor := { floor := 0, rooms := gf_rooms,
                      columns := columns_from_rooms gf_rooms },
    first_floor := { floor := 1, rooms := ff_rooms,
                     columns := columns_from_rooms ff_rooms },
    compliance := { passed := true } }

/-- Layout C - Rear Staircase. -/
def layout_c (cfg : PlotConfig) (ewt : ℚ := EWT) (iwt : ℚ := IWT) : Layout :=
  let fp := floor_plate cfg ewt
  let ox := fp.ox
  let oy := fp.oy
  let W := fp.width
  let D := fp.depth
  let n_beds := cfg.num_bedrooms
  let d_stair := STAIR_D
  let d_front := qsub (qsub D d_stair) iwt
  let stair_y := qadd (qadd oy d_front) iwt
  let stair_x := qsub (qadd ox W) STAIR_W
  let k_w := qmax (qmul W (mkRat 55 100)) (qdiv (mkRat 45 10) d_stair)
  let t_w := qsub (qsub (qsub (qsub W STAIR_W) iwt) k_w) iwt
  let gf_front :=
    if cfg.parking then
      [mkRoom "gf_parking" "Parking" "parking" ox oy PARK_W d_front,
       mkRoom "gf_living" "Living / Hall" "living" (qadd (qadd ox PARK_W) iwt) oy
         (qsub (qsub W PARK_W) iwt) d_front]
    else
      if n_beds = 4 ∧ 4 < d_front then
        let d_lv := qmul d_front (mkRat 55 100)
        [mkRoom "gf_living" "Living / Hall" "living" ox oy W d_lv,
         mkRoom "gf_bed_m" "Master Bedroom" "bedroom" ox (qadd (qadd oy d_lv) iwt)
           (qmul W (mkRat 65 100)) (qsub (qsub d_front d_lv) iwt),
         mkRoom "gf_dining" "Dining" "dining" (qadd (qadd ox (qmul W (mkRat 65 100))) iwt)
           (qadd (qadd oy d_lv) iwt) (qsub (qmul W (mkRat 35 100)) iwt)
           (qsub (qsub d_front d_lv) iwt)]
      else
        [mkRoom "gf_living" "Living / Hall" "living" ox oy W d_front]
  let gf_kitchen := [mkRoom "gf_kitchen" "Kitchen" "kitchen" ox stair_y k_w d_stair]
  let gf_service :=
    if cfg.has_pooja ∧ qadd POOJA_W (mkRat 1 2) < t_w then
      [mkRoom "gf_pooja" "Pooja Room" "pooja" (qadd (qadd ox k_w) iwt) stair_y POOJA_W
        d_stair] ++
      (let rem_w := qsub (qsub t_w POOJA_W) iwt
       if mkRat 1 2 < rem_w then
         [mkRoom "gf_toilet_1" "Toilet 1" "toilet"
           (qadd (qadd (qadd (qadd ox k_w) iwt) POOJA_W) iwt) stair_y rem_w d_stair]
       else [])
    else if mkRat 1 2 < t_w then
      [mkRoom "gf_toilet_1" "Toilet 1" "toilet" (qadd (qadd ox k_w) iwt) stair_y t_w
        d_stair]
    else []
  let gf_rooms := gf_front ++ gf_kitchen ++ gf_service ++
    [mkRoom "gf_stair" "Staircase" "staircase" stair_x stair_y STAIR_W d_stair]
  let bed_count_ff := if n_beds = 4 then min n_beds 3 else n_beds
  let ff_beds := bed_rooms_ff bed_count_ff ox oy W d_front iwt "ff"
  let ff_front :=
    if cfg.has_balcony then
      let bal_d := mkRat 12 10
      (ff_beds.map (fun rm =>
        if rm.type = "bedroom" ∧ qabs (qsub rm.y oy) < mkRat 1 100 then
          { rm with depth := round3 (qsub (qsub rm.depth bal_d) iwt) }
        else rm)) ++
      [mkRoom "ff_balcony" "Balcony" "balcony" ox (qadd oy (qsub d_front bal_d)) W bal_d]
    else ff_beds
  let toilet_zone_w := qsub (qsub W STAIR_W) iwt
  let ff_rooms := ff_front ++
    [mkRoom "ff_stair" "Staircase" "staircase" stair_x stair_y STAIR_W d_stair] ++
    (if 2 ≤ cfg.toilets then
      [mkRoom "ff_toilet_2" "Toilet 2" "toilet" ox stair_y toilet_zone_w d_stair]
     else
      [mkRoom "ff_landing" "Landing" "utility" ox stair_y toilet_zone_w d_stair])
  { id := "C", name := "Rear Staircase",
    ground_floor := { floor := 0, rooms := gf_rooms,
                      columns := columns_from_rooms gf_rooms },
    first_floor := { floor := 1, rooms := ff_rooms,
                     columns := columns_from_rooms ff_rooms },
    compliance := { passed := true } }

/-- Update the first room satisfying the predicate (used, on a reversed
list, for the in-place mutation of the LAST bedroom in `layout_d`). -/
def updFirst (p : Room → Bool) (f : Room → Room) : List Room → List Room
  | [] => []
  | r :: rs => if p r then f r :: rs else r :: updFirst p f rs

/-- Layout D - Corner Entry. -/
def layout_d (cfg : PlotConfig) (ewt : ℚ := EWT) (iwt : ℚ := IWT) : Layout :=
  let fp := floor_plate cfg ewt
  let ox := fp.ox
  let oy := fp.oy
  let W := fp.width
  let D := fp.depth
  let n_beds := cfg.num_bedrooms
  let d_stair := STAIR_D
  let living_w := qsub (qsub W STAIR_W) iwt
  let d_front := qmax d_stair (qmul D (mkRat 35 100))
  let d_rear := qsub (qsub D d_front) iwt
  let rear_y := qadd (qadd oy d_front) iwt
  let gf_front :=
    [mkRoom "gf_stair" "Staircase" "staircase" ox oy STAIR_W d_stair] ++
    (if cfg.parking then
      [mkRoom "gf_parking" "Parking" "parking" (qadd (qadd ox STAIR_W) iwt) oy PARK_W
        d_stair,
       mkRoom "gf_living" "Living / Hall" "living"
         (qadd (qadd (qadd (qadd ox STAIR_W) iwt) PARK_W) iwt) oy
         (qsub (qsub living_w PARK_W) iwt) d_front]
     else
      [mkRoom "gf_living" "Living / Hall" "living" (qadd (qadd ox STAIR_W) iwt) oy
        living_w d_front])
  let k_w := qmul W (mkRat 55 100)
  let din_w := qmul W (mkRat 3 10)
  let t_w := qsub (qsub (qsub W k_w) din_w) (qmul 2 iwt)
  let gf_rear :=
    if cfg.has_pooja ∧ qadd POOJA_W (mkRat 1 2) < t_w then
      [mkRoom "gf_kitchen" "Kitchen" "kitchen" ox rear_y k_w d_rear,
       mkRoom "gf_dining" "Dining" "dining" (qadd (qadd ox k_w) iwt) rear_y din_w d_rear,
       mkRoom "gf_pooja" "Pooja Room" "pooja"
         (qadd (qadd (qadd (qadd ox k_w) iwt) din_w) iwt) rear_y POOJA_W d_rear] ++
      (let rem := qsub (qsub t_w POOJA_W) iwt
       if mkRat 1 2 < rem then
         [mkRoom "gf_toilet_1" "Toilet 1" "toilet"
           (qadd (qadd (qadd (qadd (qadd (qadd ox k_w) iwt) din_w) iwt) POOJA_W) iwt)
           rear_y rem d_rear]
       else [])
    else
      [mkRoom "gf_kitchen" "Kitchen" "kitchen" ox rear_y k_w d_rear,
       mkRoom "gf_dining" "Dining" "dining" (qadd (qadd ox k_w) iwt) rear_y din_w
         d_rear] ++
      (if mkRat 1 2 < t_w then
        [mkRoom "gf_toilet_1" "Toilet 1" "toilet"
          (qadd (qadd (qadd (qadd ox k_w) iwt) din_w) iwt) rear_y t_w d_rear]
       else [])
  let gf_rooms := gf_front ++ gf_rear
  let landing_w := qsub (qsub W STAIR_W) iwt
  let ff_front :=
    [mkRoom "ff_stair" "Staircase" "staircase" ox oy STAIR_W d_stair] ++
    (if 2 ≤ cfg.toilets then
      [mkRoom "ff_toilet_2" "Toilet 2" "toilet" (qadd (qadd ox STAIR_W) iwt) oy landing_w
        d_stair]
     else
      [mkRoom "ff_landing" "Landing" "utility" (qadd (qadd ox STAIR_W) iwt) oy landing_w
        d_stair])
  let bed_y := qadd (qadd oy d_stair) iwt
  let d_bed := qsub (qsub D d_stair) iwt
  let bed_count := if n_beds = 4 then min n_beds 3 else n_beds
  let ff_base := ff_front ++ bed_rooms_ff bed_count ox bed_y W d_bed iwt "ff"
  let ff_rooms :=
    if cfg.has_study ∧ 4 < d_bed then
      match (ff_base.reverse.find? (fun r => r.type == "bedroom")) with
      | none => ff_base
      | some lb =>
        let new_depth := round3 (qsub (qsub lb.depth (mkRat 25 10)) iwt)
        let updated := (updFirst (fun r => r.type == "bedroom")
          (fun r => { r with depth := new_depth }) ff_base.reverse).reverse
        updated ++
        [mkRoom "ff_study" "Study" "study" lb.x (qadd (qadd lb.y new_depth) iwt)
          lb.width (mkRat 25 10)]
    else ff_base
  { id := "D", name := "Corner Entry",
    ground_floor := { floor := 0, rooms := gf_rooms,
                      columns := columns_from_rooms gf_rooms },
    first_floor := { floor := 1, rooms := ff_rooms,
                     columns := columns_from_rooms ff_rooms },
    compliance := { passed := true } }

/-- Layout E - Open Plan. -/
def layout_e (cfg : PlotConfig) (ewt : ℚ := EWT) (iwt : ℚ := IWT) : Layout :=
  let fp := floor_plate cfg ewt
  let ox := fp.ox
  let oy := fp.oy
  let W := fp.width
  let D := fp.depth
  let n_beds := cfg.num_bedrooms
  let d_stair := STAIR_D
  let d_front := qmax (qmul D (mkRat 38 100)) 4
  let d_mid := d_stair
  let d_rear := qsub (qsub (qsub D d_front) d_mid) (qmul 2 iwt)
  let stair_y := qadd (qadd oy d_front) iwt
  let rear_y := qadd (qadd stair_y d_mid) iwt
  let gf_front :=
    if cfg.parking then
      [mkRoom "gf_parking" "Parking" "parking" ox oy PARK_W d_front,
       mkRoom "gf_living" "Living / Hall" "living" (qadd (qadd ox PARK_W) iwt) oy
         (qsub (qsub W PARK_W) iwt) d_front]
    else
      [mkRoom "gf_living" "Living / Hall" "living" ox oy W d_front]
  let t_ctr_w := qsub (qsub W STAIR_W) iwt
  let gf_mid :=
    [mkRoom "gf_stair" "Staircase" "staircase" ox stair_y STAIR_W d_mid,
     mkRoom "gf_toilet_1" "Toilet 1" "toilet" (qadd (qadd ox STAIR_W) iwt) stair_y
       t_ctr_w d_mid]
  let kit_w := qmul W (mkRat 55 100)
  let din_w := qsub W kit_w
  let gf_rear :=
    [mkRoom "gf_kitchen" "Kitchen" "kitchen" ox rear_y kit_w d_rear,
     mkRoom "gf_dining" "Dining" "dining" (qadd ox kit_w) rear_y din_w d_rear]
  let gf_rooms :=
    if cfg.has_pooja ∧ 2 < d_rear then
      let din_w_new := qsub (qsub din_w POOJA_W) iwt
      (gf_front ++ gf_mid ++ gf_rear).dropLast ++
      [mkRoom "gf_dining" "Dining" "dining" (qadd ox kit_w) rear_y din_w_new d_rear,
       mkRoom "gf_pooja" "Pooja Room" "pooja" (qadd (qadd (qadd ox kit_w) din_w_new) iwt)
         rear_y POOJA_W d_rear]
    else gf_front ++ gf_mid ++ gf_rear
  let ff_mid :=
    [mkRoom "ff_stair" "Staircase" "staircase" ox stair_y STAIR_W d_mid] ++
    (if 2 ≤ cfg.toilets then
      [mkRoom "ff_toilet_2" "Toilet 2" "toilet" (qadd (qadd ox STAIR_W) iwt) stair_y
        t_ctr_w d_mid]
     else
      [mkRoom "ff_landing" "Landing" "utility" (qadd (qadd ox STAIR_W) iwt) stair_y
        t_ctr_w d_mid])
  let bed_count := if n_beds = 4 then min n_beds 3 else n_beds
  let ff_beds := bed_rooms_ff bed_count ox oy W d_front iwt "ff"
  let ff_rear :=
    if 3 ≤ n_beds then
      [mkRoom "ff_bed_3" "Bedroom 3" "bedroom" ox rear_y W d_rear]
    else if cfg.has_study then
      [mkRoom "ff_study" "Study" "study" ox rear_y W d_rear]
    else
      [mkRoom "ff_utility" "Study / Utility" "utility" ox rear_y W d_rear]
  let ff_base := ff_mid ++ ff_beds ++ ff_rear
  let ff_rooms :=
    if cfg.has_balcony ∧ mkRat 35 10 < d_front then
      let bal_d := mkRat 12 10
      (ff_base.map (fun rm =>
        if rm.type = "bedroom" ∧ qabs (qsub rm.y oy) < mkRat 1 100 then
          { rm with depth := round3 (qsub (qsub rm.depth bal_d) iwt) }
        else rm)) ++
      [mkRoom "ff_balcony" "Balcony" "balcony" ox (qadd oy (qsub d_front bal_d)) W bal_d]
    else ff_base
  { id := "E", name := "Open Plan Kitchen",
    ground_floor := { floor := 0, rooms := gf_rooms,
                      columns := columns_from_rooms gf_rooms },
    first_floor := { floor := 1, rooms := ff_rooms,
                     columns := columns_from_rooms ff_rooms },
    compliance := { passed := true } }

/-- Layout F - Courtyard; `none` when the buildable plate is too small. -/
def layout_f (cfg : PlotConfig) (ewt : ℚ := EWT) (iwt : ℚ := IWT) : Option Layout :=
  let fp := floor_plate cfg ewt
  let ox := fp.ox
  let oy := fp.oy
  let W := fp.width
  let D := fp.depth
  if W < 8 ∨ D < 10 then none else
  let n_beds := cfg.num_bedrooms
  let ct_w := qmul W (mkRat 35 100)
  let ct_d := qmul D (mkRat 3 10)
  let ct_x := qadd ox (qdiv (qsub W ct_w) 2)
  let ct_y := qadd oy (qmul D (mkRat 35 100))
  let d_front := qsub (qsub ct_y oy) iwt
  let gf_front :=
    if cfg.parking then
      [mkRoom "gf_parking" "Parking" "parking" ox oy PARK_W d_front,
       mkRoom "gf_living" "Living / Hall" "living" (qadd (qadd ox PARK_W) iwt) oy
         (qsub (qsub W PARK_W) iwt) d_front]
    else
      [mkRoom "gf_living" "Living / Hall" "living" ox oy W d_front]
  let k_w := qsub (qsub ct_x ox) iwt
  let gf_kitchen := [mkRoom "gf_kitchen" "Kitchen" "kitchen" ox ct_y k_w ct_d]
  let right_x := qadd (qadd ct_x ct_w) iwt
  let right_w := qsub (qadd ox W) right_x
  let gf_right :=
    if cfg.has_pooja ∧ qadd POOJA_W 1 < right_w then
      [mkRoom "gf_pooja" "Pooja Room" "pooja" right_x ct_y POOJA_W ct_d,
       mkRoom "gf_toilet_1" "Toilet 1" "toilet" (qadd (qadd right_x POOJA_W) iwt) ct_y
         (qsub (qsub right_w POOJA_W) iwt) ct_d]
    else
      [mkRoom "gf_toilet_1" "Toilet 1" "toilet" right_x ct_y right_w ct_d]
  let rear_y := qadd (qadd ct_y ct_d) iwt
  let d_rear := qsub (qadd oy D) rear_y
  let gf_rear :=
    [mkRoom "gf_stair" "Staircase" "staircase" ox rear_y STAIR_W d_rear,
     mkRoom "gf_dining" "Dining" "dining" (qadd (qadd ox STAIR_W) iwt) rear_y
       (qsub (qsub W STAIR_W) iwt) d_rear]
  let gf_rooms := gf_front ++ gf_kitchen ++ gf_right ++ gf_rear
  let ff_front :=
    [mkRoom "ff_stair" "Staircase" "staircase" ox rear_y STAIR_W d_rear] ++
    (if 2 ≤ cfg.toilets then
      [mkRoom "ff_toilet_2" "Toilet 2" "toilet" (qadd (qadd ox STAIR_W) iwt) rear_y
        (qsub (qsub W STAIR_W) iwt) d_rear]
     else
      [mkRoom "ff_landing" "Landing" "utility" (qadd (qadd ox STAIR_W) iwt) rear_y
        (qsub (qsub W STAIR_W) iwt) d_rear])
  let bed_count := if n_beds = 4 then min n_beds 3 else n_beds
  let d_bed := qsub (qadd ct_y ct_d) oy
  let ff_base := ff_front ++ bed_rooms_ff bed_count ox oy W d_bed iwt "ff"
  let ff_rooms :=
    if cfg.has_balcony then
      let bal_d := mkRat 12 10
      (ff_base.map (fun rm =>
        if rm.type = "bedroom" ∧ rm.y = oy then
          { rm with depth := round3 (qsub (qsub rm.depth bal_d) iwt) }
        else rm)) ++
      [mkRoom "ff_balcony" "Balcony" "balcony" ox (qadd oy (qsub d_bed bal_d)) W bal_d]
    else ff_base
  some
  { id := "F", name := "Courtyard",
    ground_floor := { floor := 0, rooms := gf_rooms,
                      columns := columns_from_rooms gf_rooms },
    first_floor := { floor := 1, rooms := ff_rooms,
                     columns := columns_from_rooms ff_rooms },
    compliance := { passed := true } }

/-! ## Constraint solver (`solver.py`)

The CP-SAT search itself is external (OR-Tools).  `solve_one` is
parameterised by the search outcome: `none` models an infeasible /
timed-out / crashed run, `some places` a candidate assignment of the
position/size variables.  CP-SAT only ever returns assignments that
satisfy every posted constraint, so a candidate that fails
`assignment_ok` (the conjunction of the model's constraints over the
room variables) yields no layout.  The adjacency objective only
constrains auxiliary indicator variables (the source forces `adj == 1`
outright), so it restricts no room geometry and affects only which of
several feasible assignments is returned. -/

def solver_ADJACENCY_PAIRS : List (String × String × ℤ) :=
  [("kitchen", "dining", 15), ("bedroom", "toilet", 12),
   ("master_bedroom", "toilet", 12), ("living", "staircase", 8),
   ("living", "dining", 10), ("kitchen", "utility", 6)]

structure RoomDef where
  id : String
  rtype : String
  name : String
  floor : ℤ
  custom_min_area : Option ℚ := none
deriving DecidableEq

structure RoomSpecEntry where
  min_area_sqm : ℚ
  max_area_sqm : ℚ
  min_width_m : ℚ
  max_width_m : ℚ
deriving DecidableEq

/-- The `room_specs.json` table: room type → size spec. -/
def Specs : Type := List (String × RoomSpecEntry)

instance : DecidableEq Specs := by
  unfold Specs
  infer_instance

def replaceUnderscoreChar (c : Char) : Char := if c = '_' then ' ' else c

def splitSpace : List Char → List (List Char)
  | [] => [[]]
  | c :: cs =>
    let rest := splitSpace cs
    if c = ' ' then [] :: rest
    else
      match rest with
      | [] => [[c]]
      | w :: ws => (c :: w) :: ws

def pyTitleWord (w : List Char) : List Char :=
  match w with
  | [] => []
  | c :: cs => asciiUpperChar c :: cs.map asciiLowerChar

/-- Python `s.replace("_", " ").title()`. -/
def pyTitle (s : String) : String :=
  ⟨(List.intersperse [' ']
    ((splitSpace (s.data.map replaceUnderscoreChar)).map pyTitleWord)).join⟩

/-- `_build_room_list`: which rooms the solver places, from the config. -/
def build_room_list (cfg : PlotConfig) : List RoomDef :=
  [{ id := "living_0", rtype := "living", name := "Living Room", floor := 0 },
   { id := "kitchen_0", rtype := "kitchen", name := "Kitchen", floor := 0 }] ++
  ((List.range cfg.num_bedrooms).map (fun i =>
    ({ id := "bedroom_" ++ natStr i, rtype := "bedroom",
       name := "Bedroom " ++ natStr (i + 1),
       floor := if i = 0 then 0 else 1 } : RoomDef))) ++
  ((List.range cfg.toilets).map (fun i =>
    { id := "toilet_" ++ natStr i, rtype := "toilet",
      name := "Toilet " ++ natStr (i + 1),
      floor := if i < max 1 (cfg.num_bedrooms / 2) then 0 else 1 })) ++
  [{ id := "stair_0", rtype := "staircase", name := "Staircase", floor := 0 },
   { id := "stair_1", rtype := "staircase", name := "Staircase", floor := 1 }] ++
  (if cfg.has_pooja then
    [{ id := "pooja_0", rtype := "pooja", name := "Pooja Room", floor := 0 }] else []) ++
  (if cfg.has_study then
    [{ id := "study_0", rtype := "study", name := "Study Room", floor := 1 }] else []) ++
  (if cfg.has_balcony then
    [{ id := "balcony_0", rtype := "balcony", name := "Balcony", floor := 1 }] else []) ++
  (if cfg.parking then
    [{ id := "parking_0", rtype := "parking", name := "Parking", floor := 0 }] else []) ++
  (cfg.custom_room_config.enum.map (fun p =>
    let rtype := p.2.ctype.getD "utility"
    let pref := p.2.floor_preference.getD "either"
    let nm := p.2.cname.getD ""
    { id := "custom_" ++ natStr p.1, rtype := rtype,
      name := if nm = "" then pyTitle rtype else nm,
      floor := if pref = "ff" then 1 else 0,
      custom_min_area := p.2.min_area_sqm }))

/-- Position/size values of one solved room (millimetre integers). -/
structure APlace where
  px : ℤ
  py : ℤ
  pw : ℤ
  pd : ℤ
deriving DecidableEq

/-- Variable bounds for one room, from its spec entry. -/
structure RoomBound where
  rd : RoomDef
  min_w : ℤ
  max_w : ℤ
  min_d : ℤ
  max_d : ℤ
  min_area_mm2 : ℤ
  max_area_mm2 : ℤ
deriving DecidableEq

/-- Spec lookup and domain bounds for one room
(`specs.get(rtype, specs.get("utility"))` plus the `max_w < min_w` early
exit; a missing spec raises in Python and the caller catches it, so both
cases are `none`). -/
def room_bounds (specs : Specs) (bw bd : ℤ) (rd : RoomDef) : Option RoomBound :=
  match (specs.lookup rd.rtype).orElse (fun _ => specs.lookup "utility") with
  | none => none
  | some spec =>
    let min_w := mmOf spec.min_width_m
    let max_w := min (mmOf spec.max_width_m) bw
    let raw_min_area :=
      match rd.custom_min_area with
      | none => spec.min_area_sqm
      | some v => if v = 0 then spec.min_area_sqm else v
    let min_area_mm2 := intTrunc (qmul (qmul raw_min_area 1000) 1000)
    let max_area_mm2 := intTrunc (qmul (qmul spec.max_area_sqm 1000) 1000)
    let min_d := mmOf spec.min_width_m
    let max_d := min (mmOf spec.max_width_m) bd
    if max_w < min_w ∨ max_d < min_d then none
    else some { rd := rd, min_w := min_w, max_w := max_w, min_d := min_d, max_d := max_d,
                min_area_mm2 := min_area_mm2, max_area_mm2 := max_area_mm2 }

/-- Domain and posted constraints of a single room variable block. -/
def place_ok (bw bd : ℤ) (b : RoomBound) (p : APlace) : Bool :=
  decide (0 ≤ p.px) && decide (p.px ≤ bw - b.min_w) &&
  decide (0 ≤ p.py) && decide (p.py ≤ bd - b.min_d) &&
  decide (b.min_w ≤ p.pw) && decide (p.pw ≤ b.max_w) &&
  decide (b.min_d ≤ p.pd) && decide (p.pd ≤ b.max_d) &&
  decide (p.px + p.pw ≤ bw) && decide (p.py + p.pd ≤ bd) &&
  decide (0 ≤ p.pw * p.pd) && decide (b.min_area_mm2 ≤ p.pw * p.pd) &&
  decide (p.pw * p.pd ≤ b.max_area_mm2) &&
  decide (p.pd ≤ p.pw * 3) && decide (p.pw ≤ p.pd * 3)

/-- `add_no_overlap_2d` on a pair: closed rectangles may touch but not
overlap. -/
def rects_disjoint (a b : APlace) : Bool :=
  !(decide (a.px < b.px + b.pw) && decide (b.px < a.px + a.pw) &&
    decide (a.py < b.py + b.pd) && decide (b.py < a.py + a.pd))

def pairwise_disjoint : List APlace → Bool
  | [] => true
  | p :: ps => ps.all (fun q => rects_disjoint p q) && pairwise_disjoint ps

/-- Symmetry-breaking constraint on the ground-floor staircase. -/
def stair_zone_ok (bd : ℤ) (zone : String) (s : APlace) : Bool :=
  let third := bd / 3
  if zone = "front" then decide (s.py + s.pd ≤ third)
  else if zone = "rear" then decide (2 * third ≤ s.py)
  else decide (third ≤ s.py) && decide (s.py + s.pd ≤ 2 * third)

/-- All posted constraints of the CP-SAT model over the room variables. -/
def assignment_ok (bw bd : ℤ) (zone : String) (pairs : List (RoomBound × APlace)) : Bool :=
  pairs.all (fun pr => place_ok bw bd pr.1 pr.2) &&
  pairwise_disjoint ((pairs.filter (fun pr => pr.1.rd.floor == 0)).map Prod.snd) &&
  pairwise_disjoint ((pairs.filter (fun pr => !(pr.1.rd.floor == 0))).map Prod.snd) &&
  (let gf_stairs := pairs.filter
     (fun pr => pr.1.rd.floor == 0 && pr.1.rd.rtype == "staircase")
   let ff_stairs := pairs.filter
     (fun pr => !(pr.1.rd.floor == 0) && pr.1.rd.rtype == "staircase")
   (match gf_stairs, ff_stairs with
    | gp :: _, fpr :: _ =>
      decide (gp.2.px = fpr.2.px) && decide (gp.2.py = fpr.2.py) &&
      decide (gp.2.pw = fpr.2.pw) && decide (gp.2.pd = fpr.2.pd)
    | _, _ => true) &&
   (match gf_stairs with
    | gp :: _ => stair_zone_ok bd zone gp.2
    | [] => true))

/-- Convert a solved room back to metre scale. -/
def extract_room (ox oy : ℤ) (pr : RoomBound × APlace) : Room :=
  { id := pr.1.rd.id, name := pr.1.rd.name, type := pr.1.rd.rtype,
    x := round3 (qadd (qdiv (ox : ℚ) 1000) (qdiv (pr.2.px : ℚ) 1000)),
    y := round3 (qadd (qdiv (oy : ℚ) 1000) (qdiv (pr.2.py : ℚ) 1000)),
    width := round3 (qdiv (pr.2.pw : ℚ) 1000),
    depth := round3 (qdiv (pr.2.pd : ℚ) 1000) }

/-- `_corner_cols`: room corners deduplicated by 2-decimal key. -/
def corner_cols (rooms : List Room) : List Column :=
  (rooms.foldl (fun acc r =>
    [(r.x, r.y), (qadd r.x r.width, r.y), (r.x, qadd r.y r.depth),
     (qadd r.x r.width, qadd r.y r.depth)].foldl (fun acc2 c =>
      let k := (round2 c.1, round2 c.2)
      if acc2.2.contains k then acc2
      else (acc2.1 ++ [Column.mk c.1 c.2], acc2.2 ++ [k])) acc)
    (([], []) : List Column × List (ℚ × ℚ))).1

/-- The compliance (plus optional directional) stamping and the
re-evaluation of `passed`, exactly as written both at the tail of
`_solve_one` (solver.py 321-328) and per archetype in `generate`
(generator.py 35-41). -/
def apply_checks (cfg : PlotConfig) (rules : Rules) (city_data : CityData)
    (layout : Layout) : Layout :=
  let c := check layout cfg rules city_data
  if cfg.vastu_enabled then
    let vw := check_vastu { layout with compliance := c } cfg cfg.road_side
    { layout with compliance :=
        ⟨(c.violations ++ vw.1).isEmpty, c.violations ++ vw.1, c.warnings ++ vw.2⟩ }
  else { layout with compliance := c }

/-- `_solve_one`. -/
def solve_one (cfg : PlotConfig) (ewt : ℚ) (room_defs : List RoomDef) (specs : Specs)
    (stair_zone : String) (layout_id layout_name : String) (rules : Rules)
    (city_data : CityData) (search : Option (List APlace)) : Option Layout :=
  let bw := mmOf (qsub (qsub (qsub cfg.plot_width cfg.setback_left) cfg.setback_right)
    (qmul 2 ewt))
  let bd := mmOf (qsub (qsub (qsub cfg.plot_length cfg.setback_front) cfg.setback_rear)
    (qmul 2 ewt))
  if bw ≤ 0 ∨ bd ≤ 0 then none
  else
    match room_defs.mapM (room_bounds specs bw bd) with
    | none => none
    | some prepared =>
      match search with
      | none => none
      | some places =>
        if places.length = prepared.length ∧
            assignment_ok bw bd stair_zone (prepared.zip places) = true then
          let ox := mmOf (qadd cfg.setback_left ewt)
          let oy := mmOf (qadd cfg.setback_front ewt)
          let pairs := prepared.zip places
          let gf_rooms := (pairs.filter (fun pr => pr.1.rd.floor == 0)).map
            (extract_room ox oy)
          let ff_rooms := (pairs.filter (fun pr => !(pr.1.rd.floor == 0))).map
            (extract_room ox oy)
          let gf : FloorPlan := ⟨0, "ground", gf_rooms, corner_cols gf_rooms, false⟩
          let ff : FloorPlan := ⟨1, "first", ff_rooms, corner_cols ff_rooms, false⟩
          let layout0 : Layout :=
            ⟨layout_id, layout_name, gf, ff, ⟨true, [], []⟩, none, none, none⟩
          let layout2 := apply_checks cfg rules city_data layout0
          if layout2.compliance.passed then some layout2 else none
        else none

/-- `solve_layouts`: up to 3 diverse solver runs, one per staircase zone. -/
def solve_layouts (cfg : PlotConfig) (ewt : ℚ) (specs : Specs) (rules : Rules)
    (city_data : CityData) (o1 o2 o3 : Option (List APlace)) : List Layout :=
  let room_defs := build_room_list cfg
  [("front", "S1", "Layout S1 - Front Staircase", o1),
   ("mid", "S2", "Layout S2 - Centre Staircase", o2),
   ("rear", "S3", "Layout S3 - Rear Staircase", o3)].filterMap (fun z =>
    solve_one cfg ewt room_defs specs z.1 z.2.1 z.2.2.1 rules city_data z.2.2.2)

/-! ## Orchestrator (`generator.py`) -/

/-- `generate`: solver first, archetype fallback, compliance filter,
dedup against solver ids, score and keep the top 3. -/
def generate (cfg : PlotConfig) (rules : Rules) (city_data : CityData) (specs : Specs)
    (o1 o2 o3 : Option (List APlace)) : List Layout :=
  let ewt := qdiv rules.external_wall_thickness_mm 1000
  let iwt := qdiv rules.internal_wall_thickness_mm 1000
  let solver_layouts := solve_layouts cfg ewt specs rules city_data o1 o2 o3
  let solver_ids := solver_layouts.map (fun l => l.id)
  let keep : Layout → Option Layout := fun layout =>
    let l2 := apply_checks cfg rules city_data layout
    if l2.compliance.passed && !(solver_ids.contains l2.id) then some l2 else none
  let archetype_layouts :=
    [layout_a cfg ewt iwt, layout_b cfg ewt iwt, layout_c cfg ewt iwt,
     layout_d cfg ewt iwt, layout_e cfg ewt iwt].filterMap keep
  let plot_area := qmul cfg.plot_width cfg.plot_length
  let f_layouts :=
    if 150 ≤ plot_area then
      match layout_f cfg ewt iwt with
      | some lf => (keep lf).toList
      | none => []
    else []
  rank_and_select (solver_layouts ++ archetype_layouts ++ f_layouts) cfg rules 3

/-! ## Rule-table data (external JSON, not part of the engine sources) -/

/-- Modelled from the spec: the `compliance_rules.json` table is external
versioned data whose file is not among the engine sources; its keys are
listed in the spec and its values here follow the constants pinned by the
repository's tests (bedroom 9.5 sqm / 2.4 m, kitchen 4.5 sqm, toilet
2.8 sqm, staircase 900 mm) and the wall-thickness fallbacks in
`archetypes.py` (230 mm / 115 mm). -/
def default_rules : Rules :=
  { min_plot_length_m := mkRat 15 2, min_plot_width_m := 6,
    min_bedroom_sqm := mkRat 95 10, min_bedroom_width_m := mkRat 24 10,
    min_kitchen_sqm := mkRat 45 10, min_kitchen_width_m := mkRat 18 10,
    min_toilet_sqm := mkRat 28 10, min_toilet_width_m := mkRat 12 10,
    min_stair_width_mm := 900, max_beam_span_m := mkRat 45 10,
    max_floor_coverage_pct := 70, external_wall_thickness_mm := 230,
    internal_wall_thickness_mm := 115, min_window_to_floor_ratio := mkRat 1 10,
    default_far := mkRat 3 2 }

/-- Modelled from the spec: the `city_rules.json` FAR table (ascending
road-width thresholds, with an `"other"` fallback city). -/
def default_city_data : CityData :=
  [("other", [⟨9, mkRat 3 2⟩, ⟨12, mkRat 7 4⟩, ⟨100, 2⟩])]

/-- Modelled from the spec: the `room_specs.json` table (per-type
`min_area_sqm` / `max_area_sqm` / `min_width_m` / `max_width_m`),
consistent with the compliance minimums above. -/
def default_specs : Specs :=
  [("living", ⟨12, 30, 3, 6⟩),
   ("kitchen", ⟨mkRat 45 10, 12, mkRat 18 10, mkRat 36 10⟩),
   ("bedroom", ⟨mkRat 95 10, 20, mkRat 24 10, mkRat 45 10⟩),
   ("toilet", ⟨mkRat 28 10, 6, 1, mkRat 25 10⟩),
   ("staircase", ⟨mkRat 25 10, 6, mkRat 9 10, 3⟩),
   ("utility", ⟨2, 10, 1, 4⟩),
   ("pooja", ⟨mkRat 15 10, 4, 1, mkRat 25 10⟩),
   ("study", ⟨4, 12, 2, 4⟩),
   ("balcony", ⟨2, 8, 1, 4⟩),
   ("parking", ⟨mkRat 125 10, 20, mkRat 275 100, 6⟩)]

/-! ## Claim-level predicates -/

/-- Two rooms overlap by positive area (touching along an edge is not an
overlap). -/
def pos_overlap (a b : Room) : Bool :=
  decide (0 < qsub (qmin (qadd a.x a.width) (qadd b.x b.width)) (qmax a.x b.x)) &&
  decide (0 < qsub (qmin (qadd a.y a.depth) (qadd b.y b.depth)) (qmax a.y b.y))

def no_overlap_floor : List Room → Bool
  | [] => true
  | r :: rs => rs.all (fun s => !(pos_overlap r s)) && no_overlap_floor rs

def no_overlap_layout (l : Layout) : Bool :=
  no_overlap_floor l.ground_floor.rooms && no_overlap_floor l.first_floor.rooms

/-- The staircase room of the ground floor and the one of the first floor
agree in x, y, width and depth within 1 cm. -/
def stair_aligned (l : Layout) : Bool :=
  match l.ground_floor.rooms.find? (fun r => r.type == "staircase"),
        l.first_floor.rooms.find? (fun r => r.type == "staircase") with
  | some s, some t =>
    decide (qabs (qsub s.x t.x) ≤ mkRat 1 100) &&
    decide (qabs (qsub s.y t.y) ≤ mkRat 1 100) &&
    decide (qabs (qsub s.width t.width) ≤ mkRat 1 100) &&
    decide (qabs (qsub s.depth t.depth) ≤ mkRat 1 100)
  | _, _ => true

/-- The fill ratio used by `_score_circulation`: total ground+first floor
room area over the (clamped) two-floor buildable area. -/
def fill_ratio (layout : Layout) (cfg : PlotConfig) (ewt : ℚ) : ℚ :=
  let all_rooms := layout.ground_floor.rooms ++ layout.first_floor.rooms
  let total_room_area := all_rooms.foldl (fun acc r => qadd acc r.area) 0
  let bw := qsub (qsub (qsub cfg.plot_width cfg.setback_left) cfg.setback_right)
      (qmul 2 ewt)
  let bd := qsub (qsub (qsub cfg.plot_length cfg.setback_front) cfg.setback_rear)
      (qmul 2 ewt)
  let buildable_area := qmax (qmul (qmul bw bd) 2) (mkRat 1 100)
  qdiv total_room_area buildable_area

/-- The total score of a layout, 0 when no score is attached. -/
def score_total (l : Layout) : ℚ :=
  match l.score with
  | some s => s.total
  | none => 0

/-- The scored `(total, layout)` list built inside `rank_and_select`. -/
def scored_of (layouts : List Layout) (cfg : PlotConfig) (rules : Rules) :
    List (ℚ × Layout) :=
  layouts.map (fun l =>
    let s := score_layout l cfg rules
    (s.total, { l with score := some s }))

/-! ## Concrete inputs used by witnesses and counterexamples -/

/-- A 9.26 m x 14 m plot with 4 bedrooms: archetype B's rear zone stacks
dining and master bedroom on top of the kitchen. -/
def cfg_c2 : PlotConfig :=
  { plot_length := 14, plot_width := mkRat 926 100, setback_front := mkRat 15 10,
    setback_rear := 1, setback_left := mkRat 9 10, setback_right := mkRat 9 10,
    num_bedrooms := 4, toilets := 2, parking := false }

/-- The layout of `test_multi_floor.test_stilt_with_bedroom_fails`: a
bedroom on a stilt ground floor. -/
def layout_c3 : Layout :=
  { id := "T", name := "Test",
    ground_floor := { floor := 0, floor_type := "stilt",
                      rooms := [{ id := "b", name := "Bedroom", type := "bedroom",
                                  x := mkRat 113 100, y := mkRat 173 100,
                                  width := 3, depth := mkRat 35 10 }] },
    first_floor := { floor := 1, floor_type := "first" },
    compliance := { passed := true } }

/-- The config of `test_multi_floor._cfg`. -/
def cfg_c3 : PlotConfig :=
  { plot_length := 14, plot_width := 11, setback_front := mkRat 15 10,
    setback_rear := 1, setback_left := mkRat 9 10, setback_right := mkRat 9 10,
    num_bedrooms := 3, toilets := 3, parking := false }

/-- A 2 m wide plot: the usable floor plate has negative width. -/
def cfg_c5 : PlotConfig :=
  { plot_length := 14, plot_width := 2, setback_front := 1, setback_rear := 1,
    setback_left := 1, setback_right := 1, num_bedrooms := 2, toilets := 1,
    parking := false }

/-- Directional checking enabled, road facing South. -/
def cfg_c7 : PlotConfig :=
  { plot_length := 14, plot_width := 11, setback_front := mkRat 15 10,
    setback_rear := 1, setback_left := mkRat 9 10, setback_right := mkRat 9 10,
    num_bedrooms := 2, toilets := 2, parking := false, vastu_enabled := true,
    road_side := "S" }

def kitchen_c7 : Room :=
  { id := "k", name := "Kitchen", type := "kitchen", x := 8, y := 10, width := 1,
    depth := 1 }

def bedroom_c7 : Room :=
  { id := "b", name := "Bedroom", type := "bedroom", x := 8, y := 12, width := 1,
    depth := 1 }

/-- A kitchen (prohibited) and a bedroom (avoided) whose centroids fall in
the NE zone of the road-South grid. -/
def layout_c7 : Layout :=
  { id := "T", name := "Test",
    ground_floor := { floor := 0, rooms := [kitchen_c7, bedroom_c7] },
    first_floor := { floor := 1 },
    compliance := { passed := true } }

def cfg_c8 : PlotConfig :=
  { plot_length := 10, plot_width := 10, setback_front := 1, setback_rear := 1,
    setback_left := 1, setback_right := 1, num_bedrooms := 2, toilets := 1,
    parking := false }

/-- One 9 m x 9 m room: fill ratio inside the 60-90 percent band. -/
def layout_c8 : Layout :=
  { id := "T", name := "Test",
    ground_floor := { floor := 0,
                      rooms := [{ id := "r", name := "Living", type := "living",
                                  x := 1, y := 1, width := 9, depth := 9 }] },
    first_floor := { floor := 1 },
    compliance := { passed := true } }

def layout_c9_base : Layout :=
  { id := "T", name := "Test",
    ground_floor := { floor := 0,
                      rooms := [{ id := "l", name := "Living", type := "living",
                                  x := mkRat 113 100, y := mkRat 173 100,
                                  width := 4, depth := 4 }] },
    first_floor := { floor := 1 },
    compliance := { passed := true } }

/-- Same ground and first floor as `layout_c9_base`, but with a bedroom
in the basement and a second floor added. -/
def layout_c9_variant : Layout :=
  { layout_c9_base with
    second_floor := some { floor := 2, floor_type := "second",
                           rooms := [{ id := "s", name := "Bedroom", type := "bedroom",
                                       x := 0, y := 0, width := 50, depth := 50 }] },
    basement_floor := some { floor := -1, floor_type := "basement",
                             rooms := [{ id := "bb", name := "Bedroom",
                                         type := "bedroom", x := mkRat 113 100,
                                         y := mkRat 173 100, width := 3,
                                         depth := mkRat 35 10 }],
                             needs_mech_ventilation := true } }

/-- A 1-bedroom, 1-toilet config for the solver demonstration. -/
def cfg_s1 : PlotConfig :=
  { plot_length := 14, plot_width := 10, setback_front := mkRat 15 10,
    setback_rear := mkRat 15 10, setback_left := mkRat 15 10,
    setback_right := mkRat 15 10, num_bedrooms := 1, toilets := 1, parking := false }

/-- A satisfying assignment for `cfg_s1`'s room list (living, kitchen,
bedroom, toilet, ground stair, first stair), in millimetres. -/
def places_s1 : List APlace :=
  [⟨1300, 0, 3200, 4000⟩, ⟨1300, 4100, 3000, 3000⟩, ⟨1300, 7200, 3300, 3300⟩,
   ⟨0, 3100, 1200, 2400⟩, ⟨0, 0, 1000, 3000⟩, ⟨0, 0, 1000, 3000⟩]

/-! ## Theorems -/

theorem check_passed_eq (layout : Layout) (cfg : PlotConfig) (rules : Rules)
    (cd : CityData) :
    (check layout cfg rules cd).passed = (check layout cfg rules cd).violations.isEmpty :=
  rfl

/-- Claim C3: the compliance checker is supposed to flag non-parking
rooms on a stilt floor and non-gym rooms in a basement, and the
repository's own tests assert those violations, but `check` never looks
at `floor_type`, the basement or the second floor.  At the failing input
of `test_stilt_with_bedroom_fails` (a bedroom on a stilt ground floor)
it returns a clean pass with no violations at all. -/
theorem c3_stilt_bedroom_not_flagged :
    check layout_c3 cfg_c3 default_rules default_city_data =
      { passed := true, violations := [], warnings := [] } := by
  decide

/-- Claim C9: the compliance result depends only on the ground- and
first-floor rooms: two layouts that agree there receive identical
`ComplianceResult`s, whatever their second or basement floors hold. -/
theorem c9_check_reads_only_gf_ff (l1 l2 : Layout) (cfg : PlotConfig) (rules : Rules)
    (cd : CityData) (hg : l1.ground_floor = l2.ground_floor)
    (hf : l1.first_floor = l2.first_floor) :
    check l1 cfg rules cd = check l2 cfg rules cd := by
  simp only [check, hg, hf]

theorem c9_witness :
    layout_c9_base.ground_floor = layout_c9_variant.ground_floor ∧
    layout_c9_base.first_floor = layout_c9_variant.first_floor ∧
    layout_c9_base.basement_floor ≠ layout_c9_variant.basement_floor ∧
    layout_c9_base.second_floor ≠ layout_c9_variant.second_floor ∧
    check layout_c9_base cfg_c3 default_rules default_city_data =
      check layout_c9_variant cfg_c3 default_rules default_city_data :=
  ⟨by decide, by decide, by decide, by decide,
   c9_check_reads_only_gf_ff layout_c9_base layout_c9_variant cfg_c3 default_rules
     default_city_data (by decide) (by decide)⟩

theorem get_zone_unknown_road (rs : String) (h : asciiUpper rs ∉ ["S", "N", "E", "W"])
    (cx cy pw pl : ℚ) : get_zone cx cy pw pl rs = get_zone cx cy pw pl "S" := by
  simp only [List.mem_cons, List.not_mem_nil, or_false] at h
  push_neg at h
  obtain ⟨h1, h2, h3, h4⟩ := h
  simp only [get_zone, zone_grids, if_neg h1, if_neg h2, if_neg h3, if_neg h4]
  norm_num [show asciiUpper "S" = "S" from by decide]

/-- Claim C10: a `road_side` whose upper-cased form is not one of S, N,
E, W silently falls back to the road-facing-South grid: `check_vastu`
behaves exactly as with `road_side = "S"`. -/
theorem c10_unknown_road_side_defaults_south (rs : String)
    (h : asciiUpper rs ∉ ["S", "N", "E", "W"]) (layout : Layout) (cfg : PlotConfig) :
    check_vastu layout cfg rs = check_vastu layout cfg "S" := by
  have hz : ∀ cx cy pw pl, get_zone cx cy pw pl rs = get_zone cx cy pw pl "S" :=
    get_zone_unknown_road rs h
  simp only [check_vastu, hz]

theorem c10_witness :
    asciiUpper "Southeast" ∉ ["S", "N", "E", "W"] ∧
    check_vastu layout_c7 cfg_c7 "Southeast" = check_vastu layout_c7 cfg_c7 "S" :=
  ⟨by decide,
   c10_unknown_road_side_defaults_south "Southeast" (by decide) layout_c7 cfg_c7⟩

/-- Claim C7: with directional checking enabled, every ground-floor room
whose centroid zone prohibits its type contributes a prohibition
violation, and a room of a merely avoided (and not prohibited) type
contributes a warning instead. -/
theorem c7_zone_rules_enforced (layout : Layout) (cfg : PlotConfig) (rs : String)
    (room : Room) (hv : cfg.vastu_enabled = true)
    (hm : room ∈ layout.ground_floor.rooms) :
    (room.type ∈ (VASTU_RULES (get_zone (qadd room.x (qdiv room.width 2))
        (qadd room.y (qdiv room.depth 2)) cfg.plot_width cfg.plot_length rs)).prohibit →
      Msg.vastu_prohibit room.name
        (VASTU_RULES (get_zone (qadd room.x (qdiv room.width 2))
          (qadd room.y (qdiv room.depth 2)) cfg.plot_width cfg.plot_length rs)).zname
        room.type
        (VASTU_RULES (get_zone (qadd room.x (qdiv room.width 2))
          (qadd room.y (qdiv room.depth 2)) cfg.plot_width cfg.plot_length rs)).notes
        ∈ (check_vastu layout cfg rs).1) ∧
    (room.type ∉ (VASTU_RULES (get_zone (qadd room.x (qdiv room.width 2))
        (qadd room.y (qdiv room.depth 2)) cfg.plot_width cfg.plot_length rs)).prohibit ∧
     room.type ∈ (VASTU_RULES (get_zone (qadd room.x (qdiv room.width 2))
        (qadd room.y (qdiv room.depth 2)) cfg.plot_width cfg.plot_length rs)).avoid →
      Msg.vastu_avoid room.name
        (VASTU_RULES (get_zone (qadd room.x (qdiv room.width 2))
          (qadd room.y (qdiv room.depth 2)) cfg.plot_width cfg.plot_length rs)).zname
        room.type
        (VASTU_RULES (get_zone (qadd room.x (qdiv room.width 2))
          (qadd room.y (qdiv room.depth 2)) cfg.plot_width cfg.plot_length rs)).notes
        ∈ (check_vastu layout cfg rs).2) := by
  simp only [check_vastu, hv, Bool.not_true, Bool.false_eq_true, if_false]
  constructor
  · intro hp
    apply List.mem_join.mpr
    refine ⟨_, List.mem_map_of_mem _ hm, ?_⟩
    simp only [if_pos hp, List.mem_singleton]
  · rintro ⟨hnp, ha⟩
    apply List.mem_append_left
    apply List.mem_append_left
    apply List.mem_append_left
    apply List.mem_join.mpr
    refine ⟨_, List.mem_map_of_mem _ hm, ?_⟩
    simp only [if_pos (And.intro hnp ha), List.mem_singleton]

theorem c7_witness :
    Msg.vastu_prohibit "Kitchen" "Ishanya (NE)" "kitchen"
        "Sacred zone - ideal for Pooja, open space, water"
      ∈ (check_vastu layout_c7 cfg_c7 "S").1 ∧
    Msg.vastu_avoid "Bedroom" "Ishanya (NE)" "bedroom"
        "Sacred zone - ideal for Pooja, open space, water"
      ∈ (check_vastu layout_c7 cfg_c7 "S").2 := by
  constructor
  · have h := (c7_zone_rules_enforced layout_c7 cfg_c7 "S" kitchen_c7 (by decide)
      (by decide)).1 (by decide)
    simpa using h
  · have h := (c7_zone_rules_enforced layout_c7 cfg_c7 "S" bedroom_c7 (by decide)
      (by decide)).2 (by decide)
    simpa using h

/-- Claim C8: the circulation sub-score is 100 exactly on the fill-ratio
band [0.60, 0.90]; below the band it is `(fill / 0.60) * 100`, above it
`100 - 200 * (fill - 0.90)` (2 points per percentage point of over-fill)
floored at 0. -/
theorem c8_circulation_band (layout : Layout) (cfg : PlotConfig) (ewt : ℚ) :
    (score_circulation layout cfg ewt = 100 ↔
      (mkRat 6 10 ≤ fill_ratio layout cfg ewt ∧
       fill_ratio layout cfg ewt ≤ mkRat 9 10)) ∧
    (fill_ratio layout cfg ewt < mkRat 6 10 →
      score_circulation layout cfg ewt = fill_ratio layout cfg ewt / mkRat 6 10 * 100) ∧
    (mkRat 9 10 < fill_ratio layout cfg ewt →
      score_circulation layout cfg ewt =
        max 0 (100 - (fill_ratio layout cfg ewt - mkRat 9 10) * 200)) := by
  have key : score_circulation layout cfg ewt =
      (if fill_ratio layout cfg ewt < mkRat 6 10 then
        qmul (qdiv (fill_ratio layout cfg ewt) (mkRat 6 10)) 100
      else if fill_ratio layout cfg ewt ≤ mkRat 9 10 then 100
      else qmax 0 (qsub 100 (qmul (qsub (fill_ratio layout cfg ewt) (mkRat 9 10)) 200))) :=
    rfl
  have h6 : (mkRat 6 10 : ℚ) = 6 / 10 := by norm_num [Rat.mkRat_eq_div]
  have h9 : (mkRat 9 10 : ℚ) = 9 / 10 := by norm_num [Rat.mkRat_eq_div]
  set fr := fill_ratio layout cfg ewt with hfr
  rw [key, qmul_eq, qdiv_eq, qmax_eq, qsub_eq, qmul_eq, qsub_eq]
  by_cases hlo : fr < mkRat 6 10
  · rw [if_pos hlo]
    refine ⟨?_, fun _ => rfl, fun hhi => absurd (lt_trans hlo (by rw [h6, h9]; norm_num)) (not_lt.mpr (le_of_lt hhi))⟩
    constructor
    · intro heq
      exfalso
      rw [h6] at hlo heq
      have : fr = 6 / 10 := by
        field_simp at heq
        linarith
      linarith
    · rintro ⟨hge, _⟩
      exact absurd hlo (not_lt.mpr hge)
  · rw [if_neg hlo]
    by_cases hhi : fr ≤ mkRat 9 10
    · rw [if_pos hhi]
      exact ⟨⟨fun _ => ⟨not_lt.mp hlo, hhi⟩, fun _ => rfl⟩,
        fun h => absurd h hlo, fun h => absurd h (not_lt.mpr hhi)⟩
    · rw [if_neg hhi]
      push_neg at hhi
      refine ⟨?_, fun h => absurd h hlo, fun _ => rfl⟩
      constructor
      · intro heq
        exfalso
        rw [h9] at hhi heq
        have hpos : 0 < (fr - 9 / 10) * 200 := by nlinarith
        have hlt : max 0 (100 - (fr - 9 / 10) * 200) < 100 :=
          max_lt (by norm_num) (by linarith)
        rw [heq] at hlt
        exact lt_irrefl _ hlt
      · rintro ⟨_, hle⟩
        exact absurd hhi (not_lt.mpr hle)

theorem c8_witness :
    mkRat 6 10 ≤ fill_ratio layout_c8 cfg_c8 (mkRat 23 100) ∧
    fill_ratio layout_c8 cfg_c8 (mkRat 23 100) ≤ mkRat 9 10 ∧
    score_circulation layout_c8 cfg_c8 (mkRat 23 100) = 100 :=
  ⟨by decide, by decide,
   (c8_circulation_band layout_c8 cfg_c8 (mkRat 23 100)).1.mpr ⟨by decide, by decide⟩⟩

/-- Claim C5, counterexample: on a plot whose usable floor plate has
negative width, archetype A still returns a candidate layout with four
rooms — the archetype generators perform no feasibility check. -/
theorem c5_counterexample :
    (floor_plate cfg_c5 EWT).width < 0 ∧
    (layout_a cfg_c5 EWT IWT).ground_floor.rooms.length = 4 := by
  decide

theorem roundHalfEven_nonpos (x : ℚ) (h : x ≤ 0) : roundHalfEven x ≤ 0 := by
  unfold roundHalfEven
  simp only [qsub_eq]
  have hfl : ⌊x⌋ ≤ 0 := by
    calc ⌊x⌋ ≤ ⌊(0 : ℚ)⌋ := Int.floor_le_floor h
    _ = 0 := Int.floor_zero
  have hmk : (mkRat 1 2 : ℚ) = 1 / 2 := by norm_num [Rat.mkRat_eq_div]
  have hle : (⌊x⌋ : ℚ) ≤ x := Int.floor_le x
  split_ifs with h1 h2 h3
  · exact hfl
  · rw [hmk] at h2
    have hneg : (⌊x⌋ : ℚ) < 0 := by linarith
    have : ⌊x⌋ < 0 := by exact_mod_cast hneg
    omega
  · exact hfl
  · rw [hmk] at h1 h2
    have heq : x - (⌊x⌋ : ℚ) = 1 / 2 := le_antisymm (not_lt.mp h2) (not_lt.mp h1)
    have hneg : (⌊x⌋ : ℚ) < 0 := by linarith
    have : ⌊x⌋ < 0 := by exact_mod_cast hneg
    omega

theorem mmOf_nonpos (x : ℚ) (h : x ≤ 0) : mmOf x ≤ 0 := by
  unfold mmOf
  apply roundHalfEven_nonpos
  rw [qmul_eq]
  nlinarith

/-- Claim C5 (amended): on a non-trapezoidal config whose floor plate has
non-positive usable width or depth, every solver run returns no solution
(the guard precedes the search) and the Courtyard archetype returns
`none`; archetypes A-E, however, still return a candidate layout (see
the counterexample), and every engine function is total, so nothing
raises. -/
theorem c5_amended (cfg : PlotConfig) (ewt iwt : ℚ) (room_defs : List RoomDef)
    (specs : Specs) (zone lid lname : String) (rules : Rules) (cd : CityData)
    (search : Option (List APlace))
    (hshape : ¬(cfg.plot_shape = "trapezoid" ∧ 0 < cfg.plot_front_width ∧
      0 < cfg.plot_rear_width))
    (hplate : (floor_plate cfg ewt).width ≤ 0 ∨ (floor_plate cfg ewt).depth ≤ 0) :
    solve_one cfg ewt room_defs specs zone lid lname rules cd search = none ∧
    layout_f cfg ewt iwt = none := by
  have hfp : floor_plate cfg ewt =
      { ox := qadd cfg.setback_left ewt, oy := qadd cfg.setback_front ewt,
        width := qsub (qsub (qsub cfg.plot_width cfg.setback_left) cfg.setback_right)
          (qmul 2 ewt),
        depth := qsub (qsub (qsub cfg.plot_length cfg.setback_front) cfg.setback_rear)
          (qmul 2 ewt) } := by
    unfold floor_plate
    rw [if_neg hshape]
  constructor
  · unfold solve_one
    rw [if_pos]
    rcases hplate with hw | hd
    · left
      apply mmOf_nonpos
      rw [hfp] at hw
      exact hw
    · right
      apply mmOf_nonpos
      rw [hfp] at hd
      exact hd
  · unfold layout_f
    rw [if_pos]
    rcases hplate with hw | hd
    · left
      exact lt_of_le_of_lt hw (by norm_num)
    · right
      exact lt_of_le_of_lt hd (by norm_num)

theorem c5_witness :
    ¬(cfg_c5.plot_shape = "trapezoid" ∧ 0 < cfg_c5.plot_front_width ∧
      0 < cfg_c5.plot_rear_width) ∧
    (floor_plate cfg_c5 EWT).width ≤ 0 ∧
    solve_one cfg_c5 EWT (build_room_list cfg_c5) default_specs "front" "S1"
      "Layout S1 - Front Staircase" default_rules default_city_data (some places_s1) =
      none ∧
    layout_f cfg_c5 EWT IWT = none := by
  have h := c5_amended cfg_c5 EWT IWT (build_room_list cfg_c5) default_specs "front"
    "S1" "Layout S1 - Front Staircase" default_rules default_city_data (some places_s1)
    (by decide) (Or.inl (by decide))
  exact ⟨by decide, by decide, h.1, h.2⟩

theorem insert_desc_mem (x : ℚ × Layout) (l : List (ℚ × Layout)) (y : ℚ × Layout) :
    y ∈ insert_desc x l ↔ y = x ∨ y ∈ l := by
  induction l with
  | nil => simp [insert_desc]
  | cons a as ih =>
    simp only [insert_desc]
    split_ifs with h
    · simp [List.mem_cons]
    · simp only [List.mem_cons, ih]
      tauto

theorem sort_desc_mem_aux (l acc : List (ℚ × Layout)) (y : ℚ × Layout) :
    y ∈ l.foldl (fun acc x => insert_desc x acc) acc ↔ y ∈ acc ∨ y ∈ l := by
  induction l generalizing acc with
  | nil => simp
  | cons a as ih =>
    simp only [List.foldl_cons, ih, insert_desc_mem, List.mem_cons]
    tauto

theorem sort_desc_mem (l : List (ℚ × Layout)) (y : ℚ × Layout) :
    y ∈ sort_desc l ↔ y ∈ l := by
  unfold sort_desc
  rw [sort_desc_mem_aux]
  simp

theorem insert_desc_pairwise (x : ℚ × Layout) (l : List (ℚ × Layout))
    (h : l.Pairwise (fun a b => b.1 ≤ a.1)) :
    (insert_desc x l).Pairwise (fun a b => b.1 ≤ a.1) := by
  induction l with
  | nil => simp [insert_desc]
  | cons a as ih =>
    rw [List.pairwise_cons] at h
    obtain ⟨ha, has⟩ := h
    simp only [insert_desc]
    split_ifs with hlt
    · rw [List.pairwise_cons]
      constructor
      · intro z hz
        rcases List.mem_cons.mp hz with rfl | hz'
        · exact le_of_lt hlt
        · exact le_trans (ha z hz') (le_of_lt hlt)
      · rw [List.pairwise_cons]
        exact ⟨ha, has⟩
    · rw [List.pairwise_cons]
      refine ⟨?_, ih has⟩
      intro z hz
      rcases (insert_desc_mem x as z).mp hz with rfl | hz'
      · exact not_lt.mp hlt
      · exact ha z hz'

theorem sort_desc_pairwise_aux (l acc : List (ℚ × Layout))
    (hacc : acc.Pairwise (fun a b => b.1 ≤ a.1)) :
    (l.foldl (fun acc x => insert_desc x acc) acc).Pairwise (fun a b => b.1 ≤ a.1) := by
  induction l generalizing acc with
  | nil => exact hacc
  | cons a as ih => exact ih _ (insert_desc_pairwise a acc hacc)

theorem sort_desc_pairwise (l : List (ℚ × Layout)) :
    (sort_desc l).Pairwise (fun a b => b.1 ≤ a.1) :=
  sort_desc_pairwise_aux l [] (by simp)

theorem insert_desc_filter (x : ℚ × Layout) (l : List (ℚ × Layout))
    (hl : l.Pairwise (fun a b => b.1 ≤ a.1)) (k : ℚ) :
    (insert_desc x l).filter (fun p => decide (p.1 = k)) =
      if x.1 = k then l.filter (fun p => decide (p.1 = k)) ++ [x]
      else l.filter (fun p => decide (p.1 = k)) := by
  induction l with
  | nil =>
    simp only [insert_desc]
    by_cases h : x.1 = k
    · simp [List.filter_cons, h]
    · simp [List.filter_cons, h]
  | cons a as ih =>
    rw [List.pairwise_cons] at hl
    obtain ⟨ha, has⟩ := hl
    simp only [insert_desc]
    by_cases hlt : a.1 < x.1
    · rw [if_pos hlt]
      by_cases hxk : x.1 = k
      · rw [if_pos hxk]
        have hfe : (a :: as).filter (fun p => decide (p.1 = k)) = [] := by
          rw [List.filter_eq_nil_iff]
          intro z hz
          simp only [decide_eq_true_eq]
          rcases List.mem_cons.mp hz with rfl | hz'
          · intro hzz
            rw [hxk] at hlt
            rw [hzz] at hlt
            exact lt_irrefl k hlt
          · intro hzz
            have h1 : z.1 ≤ a.1 := ha z hz'
            rw [hzz] at h1
            rw [hxk] at hlt
            exact absurd (lt_of_le_of_lt h1 hlt) (lt_irrefl k)
        rw [List.filter_cons_of_pos (by simp [hxk]), hfe]
        simp
      · rw [if_neg hxk, List.filter_cons_of_neg (by simp [hxk])]
    · rw [if_neg hlt, List.filter_cons, ih has]
      by_cases hxk : x.1 = k <;> by_cases hak : a.1 = k <;>
        simp [hxk, hak, List.filter_cons]

theorem sort_desc_filter_aux (l acc : List (ℚ × Layout))
    (hacc : acc.Pairwise (fun a b => b.1 ≤ a.1)) (k : ℚ) :
    (l.foldl (fun acc x => insert_desc x acc) acc).filter (fun p => decide (p.1 = k)) =
      acc.filter (fun p => decide (p.1 = k)) ++ l.filter (fun p => decide (p.1 = k)) := by
  induction l generalizing acc with
  | nil => simp
  | cons a as ih =>
    rw [List.foldl_cons, ih _ (insert_desc_pairwise a acc hacc),
      insert_desc_filter a acc hacc k, List.filter_cons]
    by_cases hak : a.1 = k
    · rw [if_pos hak, if_pos (by simp [hak])]
      simp
    · rw [if_neg hak, if_neg (by simp [hak])]

/-- Stability of the sort: for each key value, the elements carrying that
key appear in the sorted list in their original order. -/
theorem sort_desc_filter (l : List (ℚ × Layout)) (k : ℚ) :
    (sort_desc l).filter (fun p => decide (p.1 = k)) =
      l.filter (fun p => decide (p.1 = k)) := by
  unfold sort_desc
  rw [sort_desc_filter_aux l [] (by simp) k]
  rfl

theorem scored_of_key (layouts : List Layout) (cfg : PlotConfig) (rules : Rules)
    (p : ℚ × Layout) (hp : p ∈ scored_of layouts cfg rules) :
    p.1 = score_total p.2 ∧ p.2.score.isSome = true := by
  unfold scored_of at hp
  obtain ⟨l, _, rfl⟩ := List.mem_map.mp hp
  exact ⟨rfl, rfl⟩

theorem rank_and_select_eq (layouts : List Layout) (cfg : PlotConfig) (rules : Rules)
    (n : ℕ) :
    rank_and_select layouts cfg rules n =
      ((sort_desc (scored_of layouts cfg rules)).take n).map Prod.snd :=
  rfl

/-- Claim C6: `rank_and_select` returns at most `top_n` layouts, sorted
by total score in descending order; every returned layout carries a
score; and the underlying sort is stable — for any key, the scored
candidates with that total keep their original order. -/
theorem c6_rank_and_select_spec (layouts : List Layout) (cfg : PlotConfig)
    (rules : Rules) (n : ℕ) :
    (rank_and_select layouts cfg rules n).length ≤ n ∧
    (rank_and_select layouts cfg rules n).Pairwise
      (fun a b => score_total b ≤ score_total a) ∧
    (∀ l ∈ rank_and_select layouts cfg rules n, l.score.isSome = true) ∧
    (∀ k : ℚ, (sort_desc (scored_of layouts cfg rules)).filter
        (fun p => decide (p.1 = k)) =
      (scored_of layouts cfg rules).filter (fun p => decide (p.1 = k))) := by
  refine ⟨?_, ?_, ?_, fun k => sort_desc_filter _ k⟩
  · rw [rank_and_select_eq, List.length_map]
    exact List.length_take_le n _
  · rw [rank_and_select_eq, List.pairwise_map]
    have hsorted : ((sort_desc (scored_of layouts cfg rules)).take n).Pairwise
        (fun a b => b.1 ≤ a.1) :=
      (sort_desc_pairwise _).sublist (List.take_sublist n _)
    refine hsorted.imp_of_mem ?_
    intro a b hma hmb hab
    have ha := scored_of_key layouts cfg rules a
      ((sort_desc_mem _ a).mp (List.take_subset n _ hma))
    have hb := scored_of_key layouts cfg rules b
      ((sort_desc_mem _ b).mp (List.take_subset n _ hmb))
    rw [← ha.1, ← hb.1]
    exact hab
  · intro l hl
    rw [rank_and_select_eq] at hl
    obtain ⟨p, hp, rfl⟩ := List.mem_map.mp hl
    exact (scored_of_key layouts cfg rules p
      ((sort_desc_mem _ p).mp (List.take_subset n _ hp))).2

theorem apply_checks_passed (cfg : PlotConfig) (rules : Rules) (cd : CityData)
    (lay : Layout) :
    (apply_checks cfg rules cd lay).compliance.passed =
      (apply_checks cfg rules cd lay).compliance.violations.isEmpty := by
  unfold apply_checks
  split_ifs with h
  · rfl
  · exact check_passed_eq lay cfg rules cd

theorem apply_checks_ground (cfg : PlotConfig) (rules : Rules) (cd : CityData)
    (lay : Layout) : (apply_checks cfg rules cd lay).ground_floor = lay.ground_floor := by
  unfold apply_checks
  split_ifs <;> rfl

theorem apply_checks_first (cfg : PlotConfig) (rules : Rules) (cd : CityData)
    (lay : Layout) : (apply_checks cfg rules cd lay).first_floor = lay.first_floor := by
  unfold apply_checks
  split_ifs <;> rfl

theorem passed_violations_nil (l : Layout) (hp : l.compliance.passed = true)
    (he : l.compliance.passed = l.compliance.violations.isEmpty) :
    l.compliance.violations = [] := by
  rw [hp] at he
  cases hv : l.compliance.violations with
  | nil => rfl
  | cons a as =>
    rw [hv] at he
    simp [List.isEmpty] at he

theorem keep_shape (cfg : PlotConfig) (rules : Rules) (cd : CityData)
    (ids : List String) (lay c : Layout)
    (h : (if (apply_checks cfg rules cd lay).compliance.passed &&
            !(ids.contains (apply_checks cfg rules cd lay).id)
          then some (apply_checks cfg rules cd lay) else none) = some c) :
    c = apply_checks cfg rules cd lay ∧ c.compliance.passed = true := by
  by_cases hcond : ((apply_checks cfg rules cd lay).compliance.passed &&
      !(ids.contains (apply_checks cfg rules cd lay).id)) = true
  · rw [if_pos hcond] at h
    obtain rfl := (Option.some.inj h).symm
    rw [Bool.and_eq_true] at hcond
    exact ⟨rfl, hcond.1⟩
  · rw [if_neg hcond] at h
    cases h

theorem solve_one_passed (cfg : PlotConfig) (ewt : ℚ) (room_defs : List RoomDef)
    (specs : Specs) (zone lid lname : String) (rules : Rules) (cd : CityData)
    (search : Option (List APlace)) (l : Layout)
    (h : solve_one cfg ewt room_defs specs zone lid lname rules cd search = some l) :
    l.compliance.passed = true ∧ l.compliance.violations = [] ∧
    ∃ lay, l = apply_checks cfg rules cd lay := by
  simp only [solve_one] at h
  split at h
  · simp at h
  · split at h
    · simp at h
    · split at h
      · simp at h
      · split at h
        · split at h
          case isTrue hp =>
            obtain rfl := (Option.some.inj h).symm
            exact ⟨hp, passed_violations_nil _ hp (apply_checks_passed cfg rules cd _),
              _, rfl⟩
          case isFalse => simp at h
        · simp at h

theorem generate_mem_candidates (cfg : PlotConfig) (rules : Rules) (cd : CityData)
    (specs : Specs) (o1 o2 o3 : Option (List APlace)) (l : Layout)
    (h : l ∈ generate cfg rules cd specs o1 o2 o3) :
    ∃ c, l = { c with score := some (score_layout c cfg rules) } ∧
      ((∃ z : String × String × String × Option (List APlace),
          solve_one cfg (qdiv rules.external_wall_thickness_mm 1000)
            (build_room_list cfg) specs z.1 z.2.1 z.2.2.1 rules cd z.2.2.2 = some c) ∨
       (∃ lay,
         (if (apply_checks cfg rules cd lay).compliance.passed &&
             !(((solve_layouts cfg (qdiv rules.external_wall_thickness_mm 1000) specs
                 rules cd o1 o2 o3).map (fun s => s.id)).contains
               (apply_checks cfg rules cd lay).id)
          then some (apply_checks cfg rules cd lay) else none) = some c ∧
         (lay = layout_a cfg (qdiv rules.external_wall_thickness_mm 1000)
            (qdiv rules.internal_wall_thickness_mm 1000) ∨
          lay = layout_b cfg (qdiv rules.external_wall_thickness_mm 1000)
            (qdiv rules.internal_wall_thickness_mm 1000) ∨
          lay = layout_c cfg (qdiv rules.external_wall_thickness_mm 1000)
            (qdiv rules.internal_wall_thickness_mm 1000) ∨
          lay = layout_d cfg (qdiv rules.external_wall_thickness_mm 1000)
            (qdiv rules.internal_wall_thickness_mm 1000) ∨
          lay = layout_e cfg (qdiv rules.external_wall_thickness_mm 1000)
            (qdiv rules.internal_wall_thickness_mm 1000) ∨
          layout_f cfg (qdiv rules.external_wall_thickness_mm 1000)
            (qdiv rules.internal_wall_thickness_mm 1000) = some lay))) := by
  simp only [generate] at h
  rw [rank_and_select_eq] at h
  obtain ⟨p, hp, rfl⟩ := List.mem_map.mp h
  have hpm := (sort_desc_mem _ p).mp (List.take_subset 3 _ hp)
  unfold scored_of at hpm
  obtain ⟨c, hc, rfl⟩ := List.mem_map.mp hpm
  refine ⟨c, rfl, ?_⟩
  rcases List.mem_append.mp hc with h1 | hf
  · rcases List.mem_append.mp h1 with hsol | harch
    · unfold solve_layouts at hsol
      obtain ⟨z, _, hzo⟩ := List.mem_filterMap.mp hsol
      exact Or.inl ⟨z, hzo⟩
    · obtain ⟨lay, hlaymem, hkeep⟩ := List.mem_filterMap.mp harch
      refine Or.inr ⟨lay, hkeep, ?_⟩
      simp only [List.mem_cons, List.not_mem_nil, or_false] at hlaymem
      rcases hlaymem with h5 | h5 | h5 | h5 | h5
      · exact Or.inl h5
      · exact Or.inr (Or.inl h5)
      · exact Or.inr (Or.inr (Or.inl h5))
      · exact Or.inr (Or.inr (Or.inr (Or.inl h5)))
      · exact Or.inr (Or.inr (Or.inr (Or.inr (Or.inl h5))))
  · by_cases hcond : (150 : ℚ) ≤ qmul cfg.plot_width cfg.plot_length
    · rw [if_pos hcond] at hf
      cases hlf : layout_f cfg (qdiv rules.external_wall_thickness_mm 1000)
          (qdiv rules.internal_wall_thickness_mm 1000) with
      | none =>
        rw [hlf] at hf
        simp at hf
      | some lf =>
        rw [hlf] at hf
        simp only [Option.mem_toList, Option.mem_def] at hf
        exact Or.inr ⟨lf, hf, Or.inr (Or.inr (Or.inr (Or.inr (Or.inr rfl))))⟩
    · rw [if_neg hcond] at hf
      simp at hf

/-- Claim C1: every layout `generate` returns has a passing compliance
result with an empty violations list — solver runs discard
non-compliant solutions and archetype candidates are kept only when the
(possibly directional-extended) check passes. -/
theorem c1_generate_all_compliant (cfg : PlotConfig) (rules : Rules) (cd : CityData)
    (specs : Specs) (o1 o2 o3 : Option (List APlace)) :
    ((generate cfg rules cd specs o1 o2 o3).all
      (fun l => l.compliance.passed && l.compliance.violations.isEmpty)) = true := by
  rw [List.all_eq_true]
  intro l hl
  obtain ⟨c, rfl, hc⟩ := generate_mem_candidates cfg rules cd specs o1 o2 o3 l hl
  suffices hs : c.compliance.passed = true ∧ c.compliance.violations = [] by
    show (c.compliance.passed && c.compliance.violations.isEmpty) = true
    rw [hs.1, hs.2]
    rfl
  rcases hc with ⟨z, hz⟩ | ⟨lay, hkeep, _⟩
  · obtain ⟨h1, h2, _⟩ := solve_one_passed cfg _ _ specs z.1 z.2.1 z.2.2.1 rules cd
      z.2.2.2 c hz
    exact ⟨h1, h2⟩
  · obtain ⟨hceq, hp⟩ := keep_shape cfg rules cd _ lay c hkeep
    subst hceq
    exact ⟨hp, passed_violations_nil _ hp (apply_checks_passed cfg rules cd lay)⟩

theorem extract_room_coords (ox oy : ℤ) (pr : RoomBound × APlace) :
    (extract_room ox oy pr).x = ((ox + pr.2.px : ℤ) : ℚ) / 1000 ∧
    (extract_room ox oy pr).y = ((oy + pr.2.py : ℤ) : ℚ) / 1000 ∧
    (extract_room ox oy pr).width = ((pr.2.pw : ℤ) : ℚ) / 1000 ∧
    (extract_room ox oy pr).depth = ((pr.2.pd : ℤ) : ℚ) / 1000 := by
  have hx : qadd (qdiv (ox : ℚ) 1000) (qdiv (pr.2.px : ℚ) 1000) =
      qdiv ((ox + pr.2.px : ℤ) : ℚ) 1000 := by
    rw [qadd_eq, qdiv_eq, qdiv_eq, qdiv_eq]
    push_cast
    ring
  have hy : qadd (qdiv (oy : ℚ) 1000) (qdiv (pr.2.py : ℚ) 1000) =
      qdiv ((oy + pr.2.py : ℤ) : ℚ) 1000 := by
    rw [qadd_eq, qdiv_eq, qdiv_eq, qdiv_eq]
    push_cast
    ring
  refine ⟨?_, ?_, ?_, ?_⟩
  · show round3 (qadd (qdiv (ox : ℚ) 1000) (qdiv (pr.2.px : ℚ) 1000)) = _
    rw [hx, round3_thousandth, qdiv_eq]
  · show round3 (qadd (qdiv (oy : ℚ) 1000) (qdiv (pr.2.py : ℚ) 1000)) = _
    rw [hy, round3_thousandth, qdiv_eq]
  · show round3 (qdiv ((pr.2.pw : ℤ) : ℚ) 1000) = _
    rw [round3_thousandth, qdiv_eq]
  · show round3 (qdiv ((pr.2.pd : ℤ) : ℚ) 1000) = _
    rw [round3_thousandth, qdiv_eq]

theorem div1000_cross_lt (c1 w1 c2 w2 : ℤ)
    (h : 0 < min (((c1 + w1 : ℤ) : ℚ) / 1000) (((c2 + w2 : ℤ) : ℚ) / 1000) -
      max (((c1 : ℤ) : ℚ) / 1000) (((c2 : ℤ) : ℚ) / 1000)) :
    c1 < c2 + w2 ∧ c2 < c1 + w1 := by
  have h1000 : (0 : ℚ) < 1000 := by norm_num
  rw [sub_pos] at h
  constructor
  · have hq : ((c1 : ℤ) : ℚ) / 1000 < ((c2 + w2 : ℤ) : ℚ) / 1000 :=
      lt_of_le_of_lt (le_max_left _ _) (lt_of_lt_of_le h (min_le_right _ _))
    rw [div_lt_div_iff h1000 h1000] at hq
    have : ((c1 : ℤ) : ℚ) < ((c2 + w2 : ℤ) : ℚ) := by nlinarith
    exact_mod_cast this
  · have hq : ((c2 : ℤ) : ℚ) / 1000 < ((c1 + w1 : ℤ) : ℚ) / 1000 :=
      lt_of_le_of_lt (le_max_right _ _) (lt_of_lt_of_le h (min_le_left _ _))
    rw [div_lt_div_iff h1000 h1000] at hq
    have : ((c2 : ℤ) : ℚ) < ((c1 + w1 : ℤ) : ℚ) := by nlinarith
    exact_mod_cast this

theorem rects_disjoint_extract (ox oy : ℤ) (a b : RoomBound × APlace)
    (h : rects_disjoint a.2 b.2 = true) :
    pos_overlap (extract_room ox oy a) (extract_room ox oy b) = false := by
  obtain ⟨hax, hay, haw, had⟩ := extract_room_coords ox oy a
  obtain ⟨hbx, hby, hbw, hbd⟩ := extract_room_coords ox oy b
  rw [Bool.eq_false_iff]
  intro hpos
  unfold pos_overlap at hpos
  rw [Bool.and_eq_true, decide_eq_true_eq, decide_eq_true_eq] at hpos
  obtain ⟨hox, hoy⟩ := hpos
  rw [qsub_eq, qmin_eq, qmax_eq, qadd_eq, qadd_eq, hax, haw, hbx, hbw] at hox
  rw [qsub_eq, qmin_eq, qmax_eq, qadd_eq, qadd_eq, hay, had, hby, hbd] at hoy
  rw [div_add_div_same, div_add_div_same] at hox hoy
  have hxx : ((ox + a.2.px : ℤ) : ℚ) + ((a.2.pw : ℤ) : ℚ) = ((ox + a.2.px + a.2.pw : ℤ) : ℚ) := by
    push_cast
    ring
  rw [show ((ox + a.2.px : ℤ) : ℚ) + ((a.2.pw : ℤ) : ℚ) = ((ox + a.2.px + a.2.pw : ℤ) : ℚ) from by push_cast; ring,
      show ((ox + b.2.px : ℤ) : ℚ) + ((b.2.pw : ℤ) : ℚ) = ((ox + b.2.px + b.2.pw : ℤ) : ℚ) from by push_cast; ring] at hox
  rw [show ((oy + a.2.py : ℤ) : ℚ) + ((a.2.pd : ℤ) : ℚ) = ((oy + a.2.py + a.2.pd : ℤ) : ℚ) from by push_cast; ring,
      show ((oy + b.2.py : ℤ) : ℚ) + ((b.2.pd : ℤ) : ℚ) = ((oy + b.2.py + b.2.pd : ℤ) : ℚ) from by push_cast; ring] at hoy
  obtain ⟨hx1, hx2⟩ := div1000_cross_lt (ox + a.2.px) a.2.pw (ox + b.2.px) b.2.pw hox
  obtain ⟨hy1, hy2⟩ := div1000_cross_lt (oy + a.2.py) a.2.pd (oy + b.2.py) b.2.pd hoy
  unfold rects_disjoint at h
  rw [Bool.not_eq_eq_eq_not, Bool.not_true] at h
  have : (decide (a.2.px < b.2.px + b.2.pw) && decide (b.2.px < a.2.px + a.2.pw) &&
      decide (a.2.py < b.2.py + b.2.pd) && decide (b.2.py < a.2.py + a.2.pd)) = true := by
    rw [Bool.and_eq_true, Bool.and_eq_true, Bool.and_eq_true]
    refine ⟨⟨⟨?_, ?_⟩, ?_⟩, ?_⟩ <;> rw [decide_eq_true_eq] <;> omega
  rw [this] at h
  cases h

theorem pairwise_disjoint_extract (ox oy : ℤ) (l : List (RoomBound × APlace))
    (h : pairwise_disjoint (l.map Prod.snd) = true) :
    no_overlap_floor (l.map (extract_room ox oy)) = true := by
  induction l with
  | nil => rfl
  | cons a as ih =>
    simp only [List.map_cons, pairwise_disjoint, no_overlap_floor] at h ⊢
    rw [Bool.and_eq_true] at h ⊢
    obtain ⟨h1, h2⟩ := h
    refine ⟨?_, ih h2⟩
    rw [List.all_eq_true] at h1 ⊢
    intro x hx
    obtain ⟨pr, hpr, rfl⟩ := List.mem_map.mp hx
    have hd := h1 _ (List.mem_map_of_mem Prod.snd hpr)
    show (!pos_overlap (extract_room ox oy a) (extract_room ox oy pr)) = true
    rw [rects_disjoint_extract ox oy a pr hd]
    rfl

theorem assignment_ok_parts (bw bd : ℤ) (zone : String)
    (pairs : List (RoomBound × APlace)) (h : assignment_ok bw bd zone pairs = true) :
    pairwise_disjoint ((pairs.filter (fun pr => pr.1.rd.floor == 0)).map Prod.snd) =
      true ∧
    pairwise_disjoint ((pairs.filter (fun pr => !(pr.1.rd.floor == 0))).map Prod.snd) =
      true := by
  unfold assignment_ok at h
  rw [Bool.and_eq_true, Bool.and_eq_true, Bool.and_eq_true] at h
  exact ⟨h.1.1.2, h.1.2⟩

theorem solve_one_no_overlap (cfg : PlotConfig) (ewt : ℚ) (room_defs : List RoomDef)
    (specs : Specs) (zone lid lname : String) (rules : Rules) (cd : CityData)
    (search : Option (List APlace)) (l : Layout)
    (h : solve_one cfg ewt room_defs specs zone lid lname rules cd search = some l) :
    no_overlap_layout l = true := by
  simp only [solve_one] at h
  split at h
  · simp at h
  · split at h
    · simp at h
    · split at h
      · simp at h
      · split at h
        case isTrue hcond =>
          split at h
          case isTrue hp =>
            obtain rfl := (Option.some.inj h).symm
            unfold no_overlap_layout
            rw [apply_checks_ground, apply_checks_first]
            obtain ⟨hgf, hff⟩ := assignment_ok_parts _ _ _ _ hcond.2
            rw [Bool.and_eq_true]
            exact ⟨pairwise_disjoint_extract _ _ _ hgf,
              pairwise_disjoint_extract _ _ _ hff⟩
          case isFalse => simp at h
        case isFalse => simp at h

/-- Claim C2 (amended): solver-produced layouts are overlap-free — any
layout a solver run returns satisfies the per-floor no-overlap
constraint, touching edges permitted.  Archetype layouts are not
guaranteed overlap-free: see the counterexample, where archetype B under
4 bedrooms overlaps its rear-zone kitchen, dining and master bedroom. -/
theorem c2_amended_solver_no_overlap (cfg : PlotConfig) (ewt : ℚ)
    (room_defs : List RoomDef) (specs : Specs) (zone lid lname : String)
    (rules : Rules) (cd : CityData) (search : Option (List APlace)) :
    ((solve_one cfg ewt room_defs specs zone lid lname rules cd search).all
      no_overlap_layout) = true := by
  cases hs : solve_one cfg ewt room_defs specs zone lid lname rules cd search with
  | none => rfl
  | some l =>
    show no_overlap_layout l = true
    exact solve_one_no_overlap cfg ewt room_defs specs zone lid lname rules cd search l hs

set_option maxRecDepth 100000 in
/-- Claim C2, counterexample: on a 9.26 m x 14 m plot with 4 bedrooms
(solver runs finding no solution), `generate` returns layouts D, C and B
— and B's ground floor contains rooms overlapping by positive area (its
rear-zone dining and master bedroom are stacked on the kitchen). -/
theorem c2_counterexample :
    ((generate cfg_c2 default_rules default_city_data default_specs none none none).map
      (fun l => (l.id, no_overlap_layout l))) =
      [("D", true), ("C", true), ("B", false)] := by
  decide

theorem find?_map_general {α β : Type} (f : α → β) (p : β → Bool) (l : List α) :
    (l.map f).find? p = (l.find? (fun a => p (f a))).map f := by
  induction l with
  | nil => rfl
  | cons a as ih =>
    simp only [List.map_cons]
    cases h : p (f a) with
    | true =>
      rw [List.find?_cons_of_pos _ h, List.find?_cons_of_pos]
      · rfl
      · exact h
    | false =>
      rw [List.find?_cons_of_neg _ (by simp [h]), List.find?_cons_of_neg]
      · exact ih
      · simp [h]

theorem find?_eq_head_filter {α : Type} (p : α → Bool) (l : List α) :
    l.find? p = (l.filter p).head? := by
  induction l with
  | nil => rfl
  | cons a as ih =>
    cases h : p a with
    | true => rw [List.find?_cons_of_pos _ h, List.filter_cons_of_pos h]; rfl
    | false => rw [List.find?_cons_of_neg _ (by simp [h]), List.filter_cons_of_neg (by simp [h]), ih]

theorem filter_filter_and {α : Type} (p q : α → Bool) (l : List α) :
    (l.filter p).filter q = l.filter (fun a => p a && q a) := by
  induction l with
  | nil => rfl
  | cons a as ih =>
    cases hp : p a with
    | true =>
      rw [List.filter_cons_of_pos hp]
      cases hq : q a with
      | true =>
        rw [List.filter_cons_of_pos hq, List.filter_cons_of_pos (by rw [hp, hq]; rfl), ih]
      | false =>
        rw [List.filter_cons_of_neg (by simp [hq]),
          List.filter_cons_of_neg (by simp [hp, hq]), ih]
    | false =>
      rw [List.filter_cons_of_neg (by simp [hp]),
        List.filter_cons_of_neg (by simp [hp]), ih]

theorem qabs_qsub_self_le (z : ℚ) : (decide (qabs (qsub z z) ≤ mkRat 1 100)) = true := by
  rw [decide_eq_true_eq, qabs_eq, qsub_eq, sub_self, abs_zero]
  norm_num [Rat.mkRat_eq_div]

theorem stair_pair_aligned (ox oy : ℤ) (gp fpr : RoomBound × APlace)
    (h1 : gp.2.px = fpr.2.px) (h2 : gp.2.py = fpr.2.py) (h3 : gp.2.pw = fpr.2.pw)
    (h4 : gp.2.pd = fpr.2.pd) :
    (decide (qabs (qsub (extract_room ox oy gp).x (extract_room ox oy fpr).x) ≤
        mkRat 1 100) &&
     decide (qabs (qsub (extract_room ox oy gp).y (extract_room ox oy fpr).y) ≤
        mkRat 1 100) &&
     decide (qabs (qsub (extract_room ox oy gp).width (extract_room ox oy fpr).width) ≤
        mkRat 1 100) &&
     decide (qabs (qsub (extract_room ox oy gp).depth (extract_room ox oy fpr).depth) ≤
        mkRat 1 100)) = true := by
  obtain ⟨hax, hay, haw, had⟩ := extract_room_coords ox oy gp
  obtain ⟨hbx, hby, hbw, hbd⟩ := extract_room_coords ox oy fpr
  rw [hax, hay, haw, had, hbx, hby, hbw, hbd, h1, h2, h3, h4]
  rw [qabs_qsub_self_le, qabs_qsub_self_le, qabs_qsub_self_le, qabs_qsub_self_le]
  rfl

theorem stair_aligned_apply_checks (cfg : PlotConfig) (rules : Rules) (cd : CityData)
    (lay : Layout) :
    stair_aligned (apply_checks cfg rules cd lay) = stair_aligned lay := by
  unfold stair_aligned
  rw [apply_checks_ground, apply_checks_first]

theorem assignment_ok_stairs (bw bd : ℤ) (zone : String)
    (pairs : List (RoomBound × APlace)) (h : assignment_ok bw bd zone pairs = true) :
    (match pairs.filter (fun pr => pr.1.rd.floor == 0 && pr.1.rd.rtype == "staircase"),
           pairs.filter (fun pr => !(pr.1.rd.floor == 0) && pr.1.rd.rtype == "staircase")
      with
     | gp :: _, fpr :: _ =>
       gp.2.px = fpr.2.px ∧ gp.2.py = fpr.2.py ∧ gp.2.pw = fpr.2.pw ∧ gp.2.pd = fpr.2.pd
     | _, _ => True) := by
  unfold assignment_ok at h
  rw [Bool.and_eq_true, Bool.and_eq_true, Bool.and_eq_true] at h
  have h4 :
      ((match pairs.filter
            (fun pr => pr.1.rd.floor == 0 && pr.1.rd.rtype == "staircase"),
          pairs.filter
            (fun pr => !(pr.1.rd.floor == 0) && pr.1.rd.rtype == "staircase") with
        | gp :: _, fpr :: _ =>
          decide (gp.2.px = fpr.2.px) && decide (gp.2.py = fpr.2.py) &&
          decide (gp.2.pw = fpr.2.pw) && decide (gp.2.pd = fpr.2.pd)
        | _, _ => true) &&
       (match pairs.filter
            (fun pr => pr.1.rd.floor == 0 && pr.1.rd.rtype == "staircase") with
        | gp :: _ => stair_zone_ok bd zone gp.2
        | [] => true)) = true := h.2
  rw [Bool.and_eq_true] at h4
  have h5 := h4.1
  rcases hGF : pairs.filter (fun pr => pr.1.rd.floor == 0 && pr.1.rd.rtype == "staircase")
    with _ | ⟨gp, grest⟩ <;>
    rcases hFF : pairs.filter
        (fun pr => !(pr.1.rd.floor == 0) && pr.1.rd.rtype == "staircase")
      with _ | ⟨fpr, frest⟩
  · rw [hGF, hFF]; trivial
  · rw [hGF, hFF]; trivial
  · rw [hGF, hFF]; trivial
  · rw [hGF, hFF]
    rw [hGF, hFF] at h5
    have h6 : (decide (gp.2.px = fpr.2.px) && decide (gp.2.py = fpr.2.py) &&
        decide (gp.2.pw = fpr.2.pw) && decide (gp.2.pd = fpr.2.pd)) = true := h5
    simp only [Bool.and_eq_true, decide_eq_true_eq] at h6
    exact ⟨h6.1.1.1, h6.1.1.2, h6.1.2, h6.2⟩

theorem stair_head_gf (ox oy : ℤ) (pairs : List (RoomBound × APlace)) :
    (((pairs.filter (fun pr => pr.1.rd.floor == 0)).map (extract_room ox oy)).find?
      (fun r => r.type == "staircase")) =
    ((pairs.filter
        (fun pr => pr.1.rd.floor == 0 && pr.1.rd.rtype == "staircase")).head?).map
      (extract_room ox oy) := by
  rw [find?_map_general, find?_eq_head_filter, filter_filter_and]
  rfl

theorem stair_head_ff (ox oy : ℤ) (pairs : List (RoomBound × APlace)) :
    (((pairs.filter (fun pr => !(pr.1.rd.floor == 0))).map (extract_room ox oy)).find?
      (fun r => r.type == "staircase")) =
    ((pairs.filter
        (fun pr => !(pr.1.rd.floor == 0) && pr.1.rd.rtype == "staircase")).head?).map
      (extract_room ox oy) := by
  rw [find?_map_general, find?_eq_head_filter, filter_filter_and]
  rfl

theorem solve_one_stair (cfg : PlotConfig) (ewt : ℚ) (room_defs : List RoomDef)
    (specs : Specs) (zone lid lname : String) (rules : Rules) (cd : CityData)
    (search : Option (List APlace)) (l : Layout)
    (h : solve_one cfg ewt room_defs specs zone lid lname rules cd search = some l) :
    stair_aligned l = true := by
  simp only [solve_one] at h
  split at h
  · simp at h
  · split at h
    · simp at h
    · split at h
      · simp at h
      · split at h
        case isTrue hcond =>
          split at h
          case isTrue hp =>
            rename_i prepared heq srch places
            obtain rfl := (Option.some.inj h).symm
            rw [stair_aligned_apply_checks]
            simp only [stair_aligned]
            rw [stair_head_gf, stair_head_ff]
            have hst := assignment_ok_stairs _ _ _ _ hcond.2
            rcases hGF : (prepared.zip places).filter
                (fun pr => pr.1.rd.floor == 0 && pr.1.rd.rtype == "staircase")
              with _ | ⟨gp, grest⟩ <;>
              rcases hFF : (prepared.zip places).filter
                  (fun pr => !(pr.1.rd.floor == 0) && pr.1.rd.rtype == "staircase")
                with _ | ⟨fpr, frest⟩ <;>
              rw [hGF, hFF]
            · rfl
            · rfl
            · rfl
            · rw [hGF, hFF] at hst
              obtain ⟨h1, h2, h3, h4⟩ := hst
              exact stair_pair_aligned _ _ gp fpr h1 h2 h3 h4
          case isFalse => simp at h
        case isFalse => simp at h

theorem stair_aligned_of_finds (l : Layout) (s t : Room)
    (hg : l.ground_floor.rooms.find? (fun r => r.type == "staircase") = some s)
    (hf : l.first_floor.rooms.find? (fun r => r.type == "staircase") = some t)
    (hx : s.x = t.x) (hy : s.y = t.y) (hw : s.width = t.width) (hd : s.depth = t.depth) :
    stair_aligned l = true := by
  have hmain : stair_aligned l =
      (decide (qabs (qsub s.x t.x) ≤ mkRat 1 100) &&
       decide (qabs (qsub s.y t.y) ≤ mkRat 1 100) &&
       decide (qabs (qsub s.width t.width) ≤ mkRat 1 100) &&
       decide (qabs (qsub s.depth t.depth) ≤ mkRat 1 100)) := by
    unfold stair_aligned
    rw [hg, hf]
  rw [hmain, hx, hy, hw, hd, qabs_qsub_self_le, qabs_qsub_self_le, qabs_qsub_self_le,
    qabs_qsub_self_le]
  rfl

theorem find?_append_or {α : Type} (p : α → Bool) (l1 l2 : List α) :
    (l1 ++ l2).find? p = (l1.find? p).or (l2.find? p) := by
  induction l1 with
  | nil => rfl
  | cons a as ih =>
    cases h : p a with
    | true =>
      rw [List.cons_append, List.find?_cons_of_pos _ h, List.find?_cons_of_pos _ h]
      rfl
    | false =>
      rw [List.cons_append, List.find?_cons_of_neg _ (by simp [h]),
        List.find?_cons_of_neg _ (by simp [h]), ih]

theorem balcony_type (bal_d iwt oyq : ℚ) (rm : Room) :
    (if rm.type = "bedroom" ∧ qabs (qsub rm.y oyq) < mkRat 1 100 then
        { rm with depth := round3 (qsub (qsub rm.depth bal_d) iwt) }
      else rm).type = rm.type := by
  split_ifs <;> rfl

theorem find?_stair_balcony (bal_d iwt oyq : ℚ) (l : List Room) :
    (l.map (fun rm =>
      if rm.type = "bedroom" ∧ qabs (qsub rm.y oyq) < mkRat 1 100 then
        { rm with depth := round3 (qsub (qsub rm.depth bal_d) iwt) }
      else rm)).find? (fun r => r.type == "staircase") =
    l.find? (fun r => r.type == "staircase") := by
  rw [find?_map_general]
  have hpred : (fun a : Room =>
      ((if a.type = "bedroom" ∧ qabs (qsub a.y oyq) < mkRat 1 100 then
          { a with depth := round3 (qsub (qsub a.depth bal_d) iwt) }
        else a).type == "staircase")) =
      (fun a : Room => a.type == "staircase") := by
    funext a
    rw [balcony_type]
  rw [hpred]
  cases hfd : l.find? (fun r => r.type == "staircase") with
  | none => rfl
  | some r =>
    have hb := List.find?_some hfd
    have htype : r.type = "staircase" := eq_of_beq hb
    have hnc : ¬(r.type = "bedroom" ∧ qabs (qsub r.y oyq) < mkRat 1 100) := by
      intro hc
      rw [htype] at hc
      exact absurd hc.1 (by decide)
    simp [hnc]

theorem stair_aligned_set_score (c : Layout) (s : Option LayoutScore) :
    stair_aligned { c with score := s } = stair_aligned c := rfl

set_option maxHeartbeats 2000000 in
theorem layout_a_stair (cfg : PlotConfig) (ewt iwt : ℚ) :
    stair_aligned (layout_a cfg ewt iwt) = true := by
  simp only [layout_a]
  split_ifs <;> exact stair_aligned_of_finds _ _ _ rfl rfl rfl rfl rfl rfl

set_option maxHeartbeats 2000000 in
theorem layout_b_stair (cfg : PlotConfig) (ewt iwt : ℚ) :
    stair_aligned (layout_b cfg ewt iwt) = true := by
  simp only [layout_b]
  split_ifs <;> exact stair_aligned_of_finds _ _ _ rfl rfl rfl rfl rfl rfl

set_option maxHeartbeats 2000000 in
theorem layout_c_stair (cfg : PlotConfig) (ewt iwt : ℚ) :
    stair_aligned (layout_c cfg ewt iwt) = true := by
  simp only [layout_c, bed_rooms_ff]
  split_ifs <;>
    (apply stair_aligned_of_finds <;>
      first
        | rfl
        | (simp only [find?_append_or, find?_stair_balcony]; rfl)
        | skip)

set_option maxHeartbeats 2000000 in
theorem layout_d_stair (cfg : PlotConfig) (ewt iwt : ℚ) :
    stair_aligned (layout_d cfg ewt iwt) = true := by
  simp only [layout_d, bed_rooms_ff]
  split_ifs <;> exact stair_aligned_of_finds _ _ _ rfl rfl rfl rfl rfl rfl

set_option maxHeartbeats 2000000 in
theorem layout_e_stair (cfg : PlotConfig) (ewt iwt : ℚ) :
    stair_aligned (layout_e cfg ewt iwt) = true := by
  simp only [layout_e]
  split_ifs <;> exact stair_aligned_of_finds _ _ _ rfl rfl rfl rfl rfl rfl

set_option maxHeartbeats 2000000 in
theorem layout_f_stair (cfg : PlotConfig) (ewt iwt : ℚ) (l : Layout)
    (h : layout_f cfg ewt iwt = some l) : stair_aligned l = true := by
  simp only [layout_f] at h
  split at h
  · simp at h
  · obtain rfl := (Option.some.inj h).symm
    split_ifs <;> exact stair_aligned_of_finds _ _ _ rfl rfl rfl rfl rfl rfl

/-- Claim C4: every layout produced by `generate` — solver-made or
archetype-made — has its ground-floor staircase room aligned with the
first-floor staircase room in x, y, width and depth, each within 1 cm. -/
theorem c4_generate_stairs_aligned (cfg : PlotConfig) (rules : Rules) (cd : CityData)
    (specs : Specs) (o1 o2 o3 : Option (List APlace)) :
    ((generate cfg rules cd specs o1 o2 o3).all stair_aligned) = true := by
  rw [List.all_eq_true]
  intro l hl
  obtain ⟨c, rfl, hc⟩ := generate_mem_candidates cfg rules cd specs o1 o2 o3 l hl
  rw [stair_aligned_set_score]
  rcases hc with ⟨z, hz⟩ | ⟨lay, hkeep, hwhich⟩
  · exact solve_one_stair cfg _ _ specs z.1 z.2.1 z.2.2.1 rules cd z.2.2.2 c hz
  · obtain ⟨hceq, _⟩ := keep_shape cfg rules cd _ lay c hkeep
    subst hceq
    rw [stair_aligned_apply_checks]
    rcases hwhich with h5 | h5 | h5 | h5 | h5 | h5
    · rw [h5]; exact layout_a_stair cfg _ _
    · rw [h5]; exact layout_b_stair cfg _ _
    · rw [h5]; exact layout_c_stair cfg _ _
    · rw [h5]; exact layout_d_stair cfg _ _
    · rw [h5]; exact layout_e_stair cfg _ _
    · exact layout_f_stair cfg _ _ lay h5

set_option maxRecDepth 100000 in
theorem solver_path_nonvacuous :
    ((solve_one cfg_s1 (qdiv 230 1000) (build_room_list cfg_s1) default_specs
        "front" "S1" "Layout S1 - Front Staircase" default_rules default_city_data
        (some places_s1)).map
      (fun l => (l.id, l.compliance.passed, no_overlap_layout l, stair_aligned l))) =
      some ("S1", true, true, true) := by
  decide
